import Mathlib

/-!
Verification development for the OLXRadar scraping-and-ingestion engine.

The definitions below are a shallow embedding of the Python sources under
`src/`: `database_manager.py`, `scrapers/base.py`, `scrapers/olx_scraper.py`,
`scrapers/vinted_scraper.py` and `scraper_manager.py`.  External effects
(HTTP fetches, the pyVinted client, BeautifulSoup extraction over fetched
documents) are parameterised as environment functions; everything the
repository's own code computes is translated directly.
-/

deriving instance DecidableEq for Except

/-! ## Python value helpers -/

/-- Python truthiness of an optional string (`None` and `""` are falsy). -/
def strTruthy : Option String → Bool
  | some s => s ≠ ""
  | none => false

/-- Python `a or b` over optional strings: `b` when `a` is falsy. -/
def pyOr2 (a b : Option String) : Option String :=
  if strTruthy a then a else b

/-- First truthy element of a Python `or`-style candidate list (`none` when all falsy). -/
def firstTruthy (l : List (Option String)) : Option String :=
  match l.find? (fun o => strTruthy o) with
  | some o => o
  | none => none

/-- Append `url` unless already present (the `if u not in urls: urls.append(u)` idiom). -/
def addUnique (acc : List String) (url : String) : List String :=
  if acc.contains url then acc else acc ++ [url]

/-- Does `hay` start with `needle` (character lists)? -/
def listStartsWith : List Char → List Char → Bool
  | [], _ => true
  | _ :: _, [] => false
  | a :: as, b :: bs => a = b && listStartsWith as bs

/-- Substring containment over character lists. -/
def containsSubList (needle : List Char) : List Char → Bool
  | [] => listStartsWith needle []
  | c :: rest => listStartsWith needle (c :: rest) || containsSubList needle rest

/-- Python `needle in hay` for strings. -/
def containsSub (needle hay : String) : Bool :=
  containsSubList needle.toList hay.toList

/-- Does `s` start with `pre`?  (Kernel-reducible `String.startsWith`.) -/
def strStartsWith (s pre : String) : Bool :=
  listStartsWith pre.toList s.toList

/-- Lower-casing (kernel-reducible `String.toLower`). -/
def strLower (s : String) : String :=
  String.mk (s.toList.map Char.toLower)

/-- Whitespace stripping (kernel-reducible `String.trim`). -/
def strTrim (s : String) : String :=
  String.mk (((s.toList.dropWhile Char.isWhitespace).reverse.dropWhile
    Char.isWhitespace).reverse)

/-- Split a character list on a separator character (`str.split(sep)`). -/
def charSplit (sep : Char) : List Char → List (List Char)
  | [] => [[]]
  | c :: rest =>
    if c = sep then [] :: charSplit sep rest
    else
      match charSplit sep rest with
      | [] => [[c]]
      | g :: gs => (c :: g) :: gs

/-- String split on one separator character. -/
def strSplitChar (sep : Char) (s : String) : List String :=
  (charSplit sep s.toList).map String.mk

/-- Join strings with a separator (kernel-reducible `String.intercalate`). -/
def strJoin (sep : String) : List String → String
  | [] => ""
  | [x] => x
  | x :: y :: xs => x ++ sep ++ strJoin sep (y :: xs)

/-- Accumulate decimal digits. -/
def digitsToNat : List Char → Nat → Nat
  | [], acc => acc
  | c :: rest, acc => digitsToNat rest (acc * 10 + (c.toNat - '0'.toNat))

/-- Parse a non-empty all-digit character list. -/
def parseDigits (cs : List Char) : Option Nat :=
  if cs ≠ [] && cs.all Char.isDigit then some (digitsToNat cs 0) else none

/-- Modelled from Python `int(str)`: strip whitespace, optional sign, decimal digits. -/
def pyParseInt (s : String) : Option Int :=
  match (strTrim s).toList with
  | '-' :: rest => (parseDigits rest).map (fun n => -(n : Int))
  | '+' :: rest => (parseDigits rest).map (fun n => (n : Int))
  | t => (parseDigits t).map (fun n => (n : Int))

/-! ## urllib.parse model

Modelled from the stdlib `urllib.parse` functions the scrapers use.
Percent-encoding/decoding is not modelled (the URLs and option values this
code base manipulates are plain ASCII without reserved characters). -/

/-- A character allowed in a URL scheme after the first letter. -/
def isSchemeChar (c : Char) : Bool :=
  c.isAlpha || c.isDigit || c = '+' || c = '-' || c = '.'

/-- Split a candidate `scheme:` head off a character list. -/
def splitSchemeAux : List Char → List Char → Option (List Char × List Char)
  | [], _ => none
  | ':' :: rest, acc => if acc ≠ [] then some (acc.reverse, rest) else none
  | c :: rest, acc => if isSchemeChar c then splitSchemeAux rest (c :: acc) else none

/-- Take characters until one of `stops` is hit; the stop character stays in the remainder. -/
def takeUntilStops (stops : List Char) : List Char → List Char × List Char
  | [] => ([], [])
  | c :: rest =>
    if stops.contains c then ([], c :: rest)
    else
      let (a, b) := takeUntilStops stops rest
      (c :: a, b)

/-- Components of a parsed URL (the `params` component is unused by this code base). -/
structure UrlParts where
  scheme : String := ""
  netloc : String := ""
  path : String := ""
  query : String := ""
  fragment : String := ""
deriving Repr, DecidableEq

/-- Modelled from `urllib.parse.urlparse`: scheme, then `//netloc` (up to `/?#`),
then the fragment split at the first `#`, then the query split at the first `?`. -/
def urlparseM (url : String) : UrlParts :=
  let cs := url.toList
  let (scheme, rest) :=
    match splitSchemeAux cs [] with
    | some (sch, r) =>
      match sch with
      | c :: _ => if c.isAlpha then (strLower (String.mk sch), r) else ("", cs)
      | [] => ("", cs)
    | none => ("", cs)
  let (netloc, rest2) :=
    match rest with
    | '/' :: '/' :: r2 =>
      let (n, r) := takeUntilStops ['/', '?', '#'] r2
      (String.mk n, r)
    | _ => ("", rest)
  let (beforeFrag, fr) := takeUntilStops ['#'] rest2
  let fragment := match fr with | _ :: after => String.mk after | [] => ""
  let (pathCs, q) := takeUntilStops ['?'] beforeFrag
  let query := match q with | _ :: after => String.mk after | [] => ""
  { scheme := scheme, netloc := netloc, path := String.mk pathCs,
    query := query, fragment := fragment }

/-- The `netloc` of a URL, as `urlparse(url).netloc` computes it. -/
def netlocOf (url : String) : String := (urlparseM url).netloc

/-- Modelled from `urllib.parse.urlunparse` (without the unused `params`). -/
def urlunparseM (p : UrlParts) : String :=
  let url := p.path
  let url :=
    if p.netloc ≠ "" || strStartsWith url "//" then
      (if url ≠ "" && !strStartsWith url "/" then "//" ++ p.netloc ++ "/" ++ url
       else "//" ++ p.netloc ++ url)
    else url
  let url := if p.scheme ≠ "" then p.scheme ++ ":" ++ url else url
  let url := if p.query ≠ "" then url ++ "?" ++ p.query else url
  if p.fragment ≠ "" then url ++ "#" ++ p.fragment else url

/-- Modelled from `urllib.parse.parse_qsl(qs, keep_blank_values=True)`. -/
def parse_qsl_kbv (qs : String) : List (String × String) :=
  (strSplitChar '&' qs).foldl
    (fun acc nv =>
      if nv = "" then acc
      else
        let (k, rest) := takeUntilStops ['='] nv.toList
        match rest with
        | _ :: v => acc ++ [(String.mk k, String.mk v)]
        | [] => acc ++ [(String.mk k, "")])
    []

/-- Python `dict` update: replace in place when the key exists, else append. -/
def dictInsert (d : List (String × String)) (k v : String) : List (String × String) :=
  if d.any (fun p => p.1 = k) then d.map (fun p => if p.1 = k then (k, v) else p)
  else d ++ [(k, v)]

/-- `dict(pairs)`: later values win, first-occurrence key order kept. -/
def dictOfPairs (pairs : List (String × String)) : List (String × String) :=
  pairs.foldl (fun d kv => dictInsert d kv.1 kv.2) []

/-- Modelled from `urllib.parse.urlencode` on string-valued pairs (no quoting needed). -/
def urlencodeM (d : List (String × String)) : String :=
  strJoin "&" (d.map (fun kv => kv.1 ++ "=" ++ kv.2))

/-! ## DatabaseManager (`database_manager.py`)

The `ads` table is a durable set of URLs with a `UNIQUE` constraint; it is
modelled as the list of its rows in insertion order. -/

/-- `DatabaseManager.url_exists`: `SELECT 1 FROM ads WHERE url = ? LIMIT 1`. -/
def url_exists (db : List String) (url : String) : Bool := db.contains url

/-- `DatabaseManager.add_url`: `INSERT OR IGNORE INTO ads (url) VALUES (?)` —
the unique constraint makes inserting a present URL a no-op. -/
def add_url (db : List String) (url : String) : List String :=
  if db.contains url then db else db ++ [url]

/-! ## Shared data model -/

/-- An ad payload dict as built by the scrapers: the fixed key set
`url/title/price/description/seller/images`, with `none` for an absent key. -/
structure Payload where
  url : Option String := none
  title : Option String := none
  price : Option String := none
  description : Option String := none
  seller : Option String := none
  images : List String := []
deriving Repr, DecidableEq, Inhabited

/-- `scrapers.base.ListingCandidate`. -/
structure ListingCandidate where
  url : String
  data : Option Payload := none
deriving Repr, DecidableEq, Inhabited

/-- An outbound-I/O event: an HTTP request, or a `time.sleep`. -/
inductive Event
  | request (url : String)
  | sleep (seconds : Nat)
deriving Repr, DecidableEq

/-- Whether every pair of consecutive requests in a trace is separated by at
least `minGap` seconds of sleeping (the rate-limiting discipline §4.4 claims). -/
def spacingGo (minGap : Nat) : List Event → Option Nat → Bool
  | [], _ => true
  | Event.sleep _s :: rest, none => spacingGo minGap rest none
  | Event.sleep s :: rest, some acc => spacingGo minGap rest (some (acc + s))
  | Event.request _ :: rest, none => spacingGo minGap rest (some 0)
  | Event.request _ :: rest, some acc => decide (minGap ≤ acc) && spacingGo minGap rest (some 0)

/-- Top-level spacing check on a trace. -/
def requestSpacingOk (minGap : Nat) (events : List Event) : Bool :=
  spacingGo minGap events none

/-! ## VintedScraper._merge_payloads (`vinted_scraper.py` 183-192)

`merged = dict(base)`, then every truthy field of `override` wins; the
`images` list only overrides when non-empty. -/

/-- One string field of the merge: `if value: merged[key] = value`. -/
def pickField (b o : Option String) : Option String := if strTruthy o then o else b

/-- `VintedScraper._merge_payloads(base, override)`. -/
def merge_payloads (base override : Payload) : Payload :=
  { url := pickField base.url override.url
    title := pickField base.title override.title
    price := pickField base.price override.price
    description := pickField base.description override.description
    seller := pickField base.seller override.seller
    images := if override.images ≠ [] then override.images else base.images }

/-- `VintedScraper._payload_has_core_fields`. -/
def vinted_payload_has_core_fields (p : Payload) : Bool :=
  strTruthy p.title && strTruthy p.description && strTruthy p.price

/-! ## supports (`scrapers/base.py` 23-26, `olx_scraper.py` 20, `vinted_scraper.py` 44-46) -/

/-- `MarketplaceScraper.supports`: lowercased netloc membership in the
variant's `supported_domains` (empty entries filtered out). -/
def base_supports (supported_domains : List String) (target_url : String) : Bool :=
  let domain := strLower (netlocOf target_url)
  (((supported_domains.filter (fun d => d ≠ "")).map strLower)).contains domain

/-- `OlxScraper.supported_domains`. -/
def olx_supported_domains : List String := ["www.olx.ua", "www.olx.pl", "www.olx.ro"]

/-- `OlxScraper.supports` (inherited from the base class). -/
def olx_supports (target_url : String) : Bool :=
  base_supports olx_supported_domains target_url

/-- `VintedScraper` never overrides `supported_domains`; it inherits the base
class's empty tuple. -/
def vinted_supported_domains : List String := []

/-- `VintedScraper.supports`: `"vinted" in urlparse(url).netloc.lower()`. -/
def vinted_supports (target_url : String) : Bool :=
  containsSub "vinted" (strLower (netlocOf target_url))

/-! ## OlxScraper (`olx_scraper.py`)

HTTP and BeautifulSoup are external: a fetch of one URL is an environment
value, and a parsed document is represented by the results its selector
queries produce. -/

/-- Outcome of the single `requests.get` inside `OlxScraper._parse_content`:
a transport-level exception, or a response with a status code and a parsed
body of type `α`. -/
inductive OlxFetch (α : Type)
  | exc
  | resp (status : Nat) (body : α)

/-- `OlxScraper._parse_content`: one request, `raise_for_status`, no retry.
Returns the parsed body (or `none`) together with the number of HTTP
requests issued (always 1). -/
def olx_parse_content {α : Type} (fetch : OlxFetch α) : Option α × Nat :=
  match fetch with
  | .exc => (none, 1)
  | .resp status body =>
    if 400 ≤ status ∧ status < 600 then (none, 1) else (some body, 1)

/-- One `l-card` ad element of a listing page, represented by what the link
lookups of `_find_listing_link` yield on it: the href found by
`select_one(sel)` per selector, the first `<a href>` fallback, and the raw
regex fallback. -/
structure OlxAdTag where
  selHref : String → Option String
  anchorHref : Option String := none
  regexHref : Option String := none

/-- A parsed OLX listing page: the pagination metadata `_get_last_page`
reads (`none` when the pagination list is missing) and the ad elements
`_get_ads` finds (`none` when no selector matches). -/
structure OlxListingPage where
  lastPage : Option Nat := none
  ads : Option (List OlxAdTag) := none

/-- Selector order of `OlxScraper._find_listing_link`. -/
def olx_link_selectors : List String :=
  ["a[data-cy=\"listing-ad-title\"]", "a[data-testid=\"ad-title\"]",
   "a[data-cy=\"ad-card-link\"]", "a[data-testid=\"ad-card-link\"]",
   "a.css-rc5s2u", "a.css-1tqlkj0"]

/-- `OlxScraper._find_listing_link`: first selector hit, then the `<a href>`
fallback, then the regex fallback. -/
def olx_find_listing_link (ad : OlxAdTag) : Option String :=
  match olx_link_selectors.findSome? ad.selHref with
  | some href => some href
  | none =>
    match ad.anchorHref with
    | some h => some h
    | none => ad.regexHref

/-- A character of the class `[\w.\-\/]` from `_is_relative_url`'s regex
(ASCII word characters). -/
def olxRelChar (c : Char) : Bool :=
  c.isAlpha || c.isDigit || c = '_' || c = '.' || c = '-' || c = '/'

/-- `OlxScraper._is_relative_url`: no netloc, or a leading `/` followed by a
word-ish character. -/
def olx_is_relative_url (url : String) : Bool :=
  if netlocOf url = "" then true
  else
    match url.toList with
    | '/' :: c :: _ => olxRelChar c
    | _ => false

/-- `OlxScraper._is_internal_url`: relative URLs pass; absolute URLs must
have their netloc in `supported_domains` (the `domain` argument is unused
by the source). -/
def olx_is_internal_url (url : String) (_domain : String) : Bool :=
  olx_is_relative_url url || olx_supported_domains.contains (netlocOf url)

/-- `OlxScraper._is_relevant_url`: reject only URLs whose query carries the
synthetic `reason=extended-region` marker. -/
def olx_is_relevant_url (url : String) : Bool :=
  let query := (urlparseM url).query
  if query = "" then true
  else if containsSub "reason=extended-region" query then false
  else true

/-- `OlxScraper._build_page_url`: keep the existing query parameters and
overwrite `page`. -/
def olx_build_page_url (targetUrl : String) (page : Nat) : String :=
  let parsed := urlparseM targetUrl
  let qp := dictOfPairs (parse_qsl_kbv parsed.query)
  let qp := dictInsert qp "page" (toString page)
  urlunparseM { parsed with query := urlencodeM qp }

/-- Result of one `collect_listings` run: the candidates plus the trace of
outbound I/O events (requests and sleeps) it performed. -/
structure OlxRun where
  listings : List ListingCandidate
  events : List Event
deriving Repr, DecidableEq

/-- The `is_known` callback invocation (`if is_known and is_known(url)`;
no predicate supplied means nothing is known). -/
def isKnownCheck (isKnown : Option (String → Bool)) (u : String) : Bool :=
  match isKnown with
  | some f => f u
  | none => false

/-- Relative-to-absolute normalisation of an accepted OLX href (line 77-78). -/
def olx_norm_href (targetNetloc href : String) : String :=
  if olx_is_relative_url href then "https" ++ "://" ++ targetNetloc ++ href else href

/-- Per-ad step of the page loop in `OlxScraper.collect_listings`
(lines 58-85): link discovery, internal/relevant filtering, relative-URL
normalisation, then the `is_known` check; the `Bool` component is
`page_contains_known`. -/
def olx_process_ad (isKnown : Option (String → Bool)) (targetNetloc : String)
    (st : List ListingCandidate × Bool) (ad : OlxAdTag) :
    List ListingCandidate × Bool :=
  match olx_find_listing_link ad with
  | none => st
  | some href =>
    if !olx_is_internal_url href targetNetloc then st
    else if !olx_is_relevant_url href then st
    else if isKnownCheck isKnown (olx_norm_href targetNetloc href) then (st.1, true)
    else (st.1 ++ [{ url := olx_norm_href targetNetloc href }], st.2)

/-- The parsed content of page number `page` of a target (`_parse_content`
over `_build_page_url`). -/
def olxPageAt (env : String → OlxFetch OlxListingPage) (targetUrl : String)
    (page : Nat) : Option OlxListingPage :=
  (olx_parse_content (env (olx_build_page_url targetUrl page))).1

/-- `_get_ads` applied to a possibly-failed page fetch. -/
def olxAdsOf (content : Option OlxListingPage) : Option (List OlxAdTag) :=
  match content with
  | some pg => pg.ads
  | none => none

/-- `_get_last_page` applied to a possibly-failed page fetch. -/
def olxLastOf (content : Option OlxListingPage) : Option Nat :=
  match content with
  | some pg => pg.lastPage
  | none => none

/-- The `last_page is None or current_page >= last_page` stop condition. -/
def olxAtLastPage (lastPage : Option Nat) (currentPage : Nat) : Bool :=
  match lastPage with
  | none => true
  | some lp => lp ≤ currentPage

/-- The `while True` pagination loop of `OlxScraper.collect_listings`
(lines 45-92), bounded by explicit fuel (the source loop has no iteration
cap; every claim instantiates the fuel high enough that the loop exits by
its own conditions first). -/
def olx_collect_go (env : String → OlxFetch OlxListingPage)
    (isKnown : Option (String → Bool)) (targetUrl targetNetloc : String) :
    Nat → Nat → List ListingCandidate → List Event → OlxRun
  | 0, _, acc, evs => { listings := acc, events := evs }
  | fuel + 1, currentPage, acc, evs =>
    match olxAdsOf (olxPageAt env targetUrl currentPage) with
    | none =>
      { listings := acc,
        events := evs ++ [Event.request (olx_build_page_url targetUrl currentPage)] }
    | some adList =>
      if olxAtLastPage (olxLastOf (olxPageAt env targetUrl currentPage)) currentPage then
        { listings := (adList.foldl (olx_process_ad isKnown targetNetloc) (acc, false)).1,
          events := evs ++ [Event.request (olx_build_page_url targetUrl currentPage)] }
      else if (adList.foldl (olx_process_ad isKnown targetNetloc) (acc, false)).2 then
        { listings := (adList.foldl (olx_process_ad isKnown targetNetloc) (acc, false)).1,
          events := evs ++ [Event.request (olx_build_page_url targetUrl currentPage)] }
      else olx_collect_go env isKnown targetUrl targetNetloc fuel (currentPage + 1)
             (adList.foldl (olx_process_ad isKnown targetNetloc) (acc, false)).1
             (evs ++ [Event.request (olx_build_page_url targetUrl currentPage)])

/-- `OlxScraper.collect_listings`: raises `ValueError` (here `Except.error`)
when the target netloc is not in `supported_domains`; `options` is accepted
but never read by the source. -/
def olx_collect_listings (env : String → OlxFetch OlxListingPage)
    (isKnown : Option (String → Bool)) (targetUrl : String)
    (_options : List (String × String)) (fuel : Nat) : Except String OlxRun :=
  let targetNetloc := netlocOf targetUrl
  if !olx_supported_domains.contains targetNetloc then
    Except.error "Bad URL! OLXRadar is configured to process www.olx.ua, www.olx.pl, www.olx.ro links only."
  else
    Except.ok (olx_collect_go env isKnown targetUrl targetNetloc fuel 1 [] [])

/-- A parsed OLX detail page, represented by what the extraction queries of
`get_ad_data` yield on it: the text of `select_one(sel)` per selector, the
image `src` lists per image selector, and the regex image fallback. -/
structure OlxDoc where
  sel : String → Option String
  imgSel : String → List String
  regexImgs : List String := []

/-- `OlxScraper._extract_text`: first selector whose node has non-empty
text wins. -/
def olx_extract_text (doc : OlxDoc) (selectors : List String) : Option String :=
  selectors.findSome? (fun s =>
    match doc.sel s with
    | some t => if t ≠ "" then some t else none
    | none => none)

/-- Title selector chain of `OlxScraper.get_ad_data`. -/
def olx_title_selectors : List String :=
  ["[data-cy=\"ad_title\"]", "[data-testid=\"ad-title\"]",
   "h4.css-1au435n", "h1.css-1soizd2"]

/-- Price selector chain of `OlxScraper.get_ad_data`. -/
def olx_price_selectors : List String :=
  ["[data-testid=\"ad-price-container\"]", "[data-testid=\"ad-price\"]",
   "h3.css-yauxmy", "h3.css-ddweki"]

/-- Description selector chain of `OlxScraper.get_ad_data`. -/
def olx_description_selectors : List String :=
  ["[data-cy=\"ad_description\"]", "[data-testid=\"ad_description\"]",
   "div.css-19duwlz", "div.css-bgzo2k"]

/-- Seller selector chain of `OlxScraper.get_ad_data`. -/
def olx_seller_selectors : List String :=
  ["[data-testid=\"seller-card\"] h4", "[data-testid=\"seller-contact\"] h4",
   "h4.css-14tb3q5", "h4.css-1lcz6o7"]

/-- Image selector chain of `OlxScraper._extract_images`. -/
def olx_image_selectors : List String :=
  ["img[data-testid*=\"swiper-image\"]", "img[data-cy=\"gallery-image\"]",
   "img[data-testid=\"ad-image\"]"]

/-- `OlxScraper._extract_images`: collect deduplicated non-empty `src`
values across the selector chain, falling back to the regex `find_all`. -/
def olx_extract_images (doc : OlxDoc) : List String :=
  let push := fun (a : List String) (src : String) =>
    if src ≠ "" && !a.contains src then a ++ [src] else a
  let images := olx_image_selectors.foldl (fun acc s => (doc.imgSel s).foldl push acc) []
  if images = [] then doc.regexImgs.foldl push [] else images

/-- `OlxScraper.get_ad_data` (lines 96-164): fetch, extract each field via
its selector chain, discard the record when title, price or description is
missing; `seller` is attached only when truthy. -/
def olx_get_ad_data (env : String → OlxFetch OlxDoc) (adUrl : String) : Option Payload :=
  match (olx_parse_content (env adUrl)).1 with
  | none => none
  | some content =>
    let title := olx_extract_text content olx_title_selectors
    let price := olx_extract_text content olx_price_selectors
    let description := olx_extract_text content olx_description_selectors
    let seller := olx_extract_text content olx_seller_selectors
    let images := olx_extract_images content
    if title = none || price = none || description = none then none
    else
      some { url := some adUrl, title := title, price := price,
             description := description,
             seller := if strTruthy seller then seller else none,
             images := images }

/-! ## VintedScraper (`vinted_scraper.py`)

Items returned by the pyVinted client are JSON-shaped payloads; the fields
`_normalize_item_payload` collects are modelled as a structure of optional
values (`none` = key absent/`None`).  Nested photo data is modelled by a
JSON-like `Node` tree exactly as `_gather_urls_from_node` walks it. -/

mutual
/-- A JSON-like node of the photo data (`str` / `dict` / `list`). -/
inductive Node
  | str (s : String)
  | dict (entries : NodeEntries)
  | list (items : NodeList)
inductive NodeEntries
  | nil
  | cons (key : String) (value : Node) (rest : NodeEntries)
inductive NodeList
  | nil
  | cons (head : Node) (tail : NodeList)
end

mutual
/-- `VintedScraper._gather_urls_from_node`: collect strings starting with
`http`, deduplicated in discovery order. -/
def gatherUrlsFromNode : Node → List String
  | .str s => if strStartsWith s "http" then [s] else []
  | .dict entries => gatherUrlsEntries entries []
  | .list items => gatherUrlsList items []
def gatherUrlsEntries : NodeEntries → List String → List String
  | .nil, acc => acc
  | .cons _ v rest, acc => gatherUrlsEntries rest ((gatherUrlsFromNode v).foldl addUnique acc)
def gatherUrlsList : NodeList → List String → List String
  | .nil, acc => acc
  | .cons h t, acc => gatherUrlsList t ((gatherUrlsFromNode h).foldl addUnique acc)
end

/-- A price field of an item payload: a JSON object (`dict`) with the keys
`_format_price` reads, or a scalar value (rendered as its string form). -/
inductive PriceVal
  | obj (amount value number currency currency_code : Option String)
  | scalar (s : String)
deriving Repr, DecidableEq

/-- The `item_box` sub-object read by `_extract_item_box_description`. -/
structure ItemBox where
  accessibility_label : Option String := none
  first_line : Option String := none
deriving Repr, DecidableEq

/-- The seller/user sub-object read by `_extract_seller` (a non-empty dict;
`none` models an absent or empty — falsy — value). -/
structure SellerInfo where
  login : Option String := none
  username : Option String := none
  name : Option String := none
deriving Repr, DecidableEq

/-- An item payload as normalised by `_normalize_item_payload`: the keys the
scraper reads.  `id` is the numeric item id (`none` = absent). -/
structure RawPayload where
  id : Option Nat := none
  url : Option String := none
  path : Option String := none
  title : Option String := none
  name : Option String := none
  description : Option String := none
  content : Option String := none
  item_box : Option ItemBox := none
  price : Option PriceVal := none
  total_item_price : Option PriceVal := none
  converted_price : Option PriceVal := none
  currency : Option String := none
  currency_code : Option String := none
  slug : Option String := none
  photos : NodeList := .nil
  photo : Option Node := none
  user : Option SellerInfo := none
  seller : Option SellerInfo := none

/-- Test for the dict case of a price candidate. -/
def PriceVal.isObj : PriceVal → Bool
  | .obj .. => true
  | .scalar _ => false

/-- Python truthiness of a scalar price candidate (`isinstance(c, (int, float, str)) and c`). -/
def PriceVal.isTruthyScalar : PriceVal → Bool
  | .scalar s => s ≠ ""
  | .obj .. => false

/-- `VintedScraper._format_price` (lines 476-505). -/
def vinted_format_price (p : RawPayload) : Option String :=
  let candidates := [p.price, p.total_item_price, p.converted_price].filterMap id
  match candidates.find? PriceVal.isObj with
  | some (.obj amount value number currency currency_code) =>
    let amt := firstTruthy [amount, value, number]
    let cur := firstTruthy [currency, currency_code]
    (match amt, cur with
     | some a, some c => some (a ++ " " ++ c)
     | some a, none => some a
     | none, _ => none)
  | some (.scalar _) => none
  | none =>
    match candidates.find? PriceVal.isTruthyScalar with
    | none => none
    | some (.obj ..) => none
    | some (.scalar s) =>
      let amount := strTrim s
      if amount = "" then none
      else
        let currency := pyOr2 p.currency p.currency_code
        if strTruthy currency then some (strTrim (amount ++ " " ++ currency.getD ""))
        else some amount

/-- `VintedScraper._extract_item_box_description`. -/
def vinted_extract_item_box_description (p : RawPayload) : Option String :=
  match p.item_box with
  | some box => pyOr2 box.accessibility_label box.first_line
  | none => none

/-- `VintedScraper._extract_seller`: `payload.get("seller") or payload.get("user")`,
then the `login`/`username`/`name` `or`-chain. -/
def vinted_extract_seller (p : RawPayload) : Option String :=
  match (match p.seller with | some s => some s | none => p.user) with
  | none => none
  | some info => pyOr2 info.login (pyOr2 info.username info.name)

/-- Gather URLs from one photo entry when it is a dict (non-dicts are skipped). -/
def vintedPhotoUrls : Node → List String
  | n@(Node.dict _) => gatherUrlsFromNode n
  | _ => []

/-- `VintedScraper._extract_images` (lines 555-576): URLs from every dict
photo entry, falling back to the cover `photo` when none were found. -/
def vinted_extract_images (p : RawPayload) : List String :=
  let rec walk : NodeList → List String → List String
    | .nil, acc => acc
    | .cons h t, acc => walk t ((vintedPhotoUrls h).foldl addUnique acc)
  let images := walk p.photos []
  if images = [] then
    match p.photo with
    | some ph => (vintedPhotoUrls ph).foldl addUnique []
    | none => []
  else images

/-- An ASCII word character (`\w` of `re`). -/
def isWordChar (c : Char) : Bool := c.isAlpha || c.isDigit || c = '_'

/-- Core of `re.sub(r"[^\w\-]+", "-", s)`: each maximal run of characters
outside `[\w-]` becomes a single dash. -/
def slugifyCore : List Char → List Char
  | [] => []
  | [c] => if isWordChar c || c = '-' then [c] else ['-']
  | c :: d :: rest =>
    if isWordChar c || c = '-' then c :: slugifyCore (d :: rest)
    else if isWordChar d || d = '-' then '-' :: slugifyCore (d :: rest)
    else slugifyCore (d :: rest)

/-- Python `str.strip("-")`. -/
def stripDashes (cs : List Char) : List Char :=
  ((cs.dropWhile (fun c => c = '-')).reverse.dropWhile (fun c => c = '-')).reverse

/-- The slug computation of `_build_url_from_parts`:
`re.sub(r"[^\w\-]+", "-", slug.lower()).strip("-")`. -/
def slugify (s : String) : String :=
  String.mk (stripDashes (slugifyCore (strLower s).toList))

/-- `VintedScraper._build_url_from_parts` (lines 458-474). -/
def vinted_build_url_from_parts (p : RawPayload) (scheme domain : String) : Option String :=
  match p.id with
  | none => none
  | some itemId =>
    if itemId = 0 then none
    else
      let host := if domain = "" then "www.vinted.com" else domain
      match p.path with
      | some path =>
        if strStartsWith path "http" then some path
        else
          let path := if strStartsWith path "/" then path else "/" ++ path
          some (scheme ++ "://" ++ host ++ path)
      | none =>
        let slug := (pyOr2 p.slug p.title).getD ""
        let safeSlug := slugify slug
        let path := "/items/" ++ toString itemId
        let path := if safeSlug ≠ "" then path ++ "-" ++ safeSlug else path
        some (scheme ++ "://" ++ host ++ path)

/-- The URL derivation of `_build_ad_from_item` (lines 139-146):
`payload.get("url") or payload.get("path")`, absolutised when relative, with
`_build_url_from_parts` as last resort. -/
def vinted_ad_url (p : RawPayload) (scheme fallbackDomain : String) : Option String :=
  let host := if fallbackDomain = "" then "www.vinted.com" else fallbackDomain
  let url1 :=
    match pyOr2 p.url p.path with
    | some u => if strStartsWith u "/" then some (scheme ++ "://" ++ host ++ u) else some u
    | none => none
  if strTruthy url1 then url1 else vinted_build_url_from_parts p scheme fallbackDomain

/-- The description `or`-chain of `_build_ad_from_item` (lines 149-153). -/
def vinted_ad_description (p : RawPayload) : Option String :=
  pyOr2 p.description (pyOr2 p.content (vinted_extract_item_box_description p))

/-- `VintedScraper._build_ad_from_item` (lines 133-181): derive the URL,
require truthy title, description and price, attach images and an optional
seller.  The argument is the normalised payload (`none` when
`_normalize_item_payload` yields nothing). -/
def vinted_build_ad_from_item (item : Option RawPayload) (scheme fallbackDomain : String) :
    Option Payload :=
  match item with
  | none => none
  | some p =>
    if !strTruthy (vinted_ad_url p scheme fallbackDomain) then none
    else if !(strTruthy (pyOr2 p.title p.name) && strTruthy (vinted_ad_description p) &&
              strTruthy (vinted_format_price p)) then none
    else
      some { url := vinted_ad_url p scheme fallbackDomain,
             title := pyOr2 p.title p.name,
             price := vinted_format_price p,
             description := vinted_ad_description p,
             seller := if strTruthy (vinted_extract_seller p) then vinted_extract_seller p else none,
             images := vinted_extract_images p }

/-! ### Vinted fetch discipline

An attempt-indexed environment gives the outcome of each HTTP attempt of a
single fetch; attempt numbering starts at 1 as in `enumerate(delays, 1)`. -/

/-- Outcome of one pyVinted `items.search` attempt: the item list, or an
exception carrying `exc.response.status_code` when present. -/
inductive SearchAttempt
  | ok (items : List (Option RawPayload))
  | exc (status : Option Nat)

/-- Result of a `_search_with_retries` run: the returned items, the number
of search attempts issued, the backoff sleeps performed, and how many
cookie refreshes were triggered. -/
structure SearchRun where
  items : List (Option RawPayload)
  attempts : Nat
  sleeps : List Nat
  refreshes : Nat

/-- Loop body of `VintedScraper._search_with_retries` (lines 248-290) over
the remaining delay schedule. -/
def search_retries_go (env : Nat → SearchAttempt) :
    List Nat → Nat → Nat → List Nat → Nat → SearchRun
  | [], attempt, _, sleeps, refreshes =>
    { items := [], attempts := attempt - 1, sleeps := sleeps, refreshes := refreshes }
  | d :: rest, attempt, numDelays, sleeps, refreshes =>
    let sleeps := if d ≠ 0 then sleeps ++ [d] else sleeps
    match env attempt with
    | .ok items => { items := items, attempts := attempt, sleeps := sleeps, refreshes := refreshes }
    | .exc status =>
      if status = some 403 then
        { items := [], attempts := attempt, sleeps := sleeps, refreshes := refreshes }
      else if status = some 401 ∨ status = some 429 then
        let refreshes := refreshes + 1
        if attempt = numDelays then
          { items := [], attempts := attempt, sleeps := sleeps, refreshes := refreshes }
        else search_retries_go env rest (attempt + 1) numDelays sleeps refreshes
      else
        { items := [], attempts := attempt, sleeps := sleeps, refreshes := refreshes }

/-- The fixed backoff schedule `delays = (0, 1, 2, 4)`. -/
def vinted_delays : List Nat := [0, 1, 2, 4]

/-- `VintedScraper._search_with_retries`: retries (with a cookie refresh)
only on 401/429; a 403, any other status, or a transport error aborts at
once; exhaustion returns `[]`. -/
def search_with_retries (env : Nat → SearchAttempt) : SearchRun :=
  search_retries_go env vinted_delays 1 vinted_delays.length [] 0

/-- Outcome of one `session.get` attempt inside `_fetch_item_soup`: a
`requests` transport exception, or a response with a status code and a
parsed body of type `α`. -/
inductive FetchAttempt (α : Type)
  | exc
  | resp (status : Nat) (body : α)

/-- Result of a `_fetch_item_soup` run: the parsed body when some attempt
succeeded, the number of HTTP attempts issued, and the sleeps performed. -/
structure FetchRun (α : Type) where
  result : Option α
  attempts : Nat
  sleeps : List Nat
deriving Repr, DecidableEq

/-- Loop body of `VintedScraper._fetch_item_soup` (lines 313-357): transport
errors and every `raise_for_status` failure (4xx/5xx, including 403) are
retried; 429 is retried except on the final attempt. -/
def fetch_soup_go {α : Type} (env : Nat → FetchAttempt α) :
    List Nat → Nat → Nat → List Nat → FetchRun α
  | [], attempt, _, sleeps => { result := none, attempts := attempt - 1, sleeps := sleeps }
  | d :: rest, attempt, numDelays, sleeps =>
    let sleeps := if d ≠ 0 then sleeps ++ [d] else sleeps
    match env attempt with
    | .exc => fetch_soup_go env rest (attempt + 1) numDelays sleeps
    | .resp status body =>
      if status = 429 then
        if attempt = numDelays then { result := none, attempts := attempt, sleeps := sleeps }
        else fetch_soup_go env rest (attempt + 1) numDelays sleeps
      else if 400 ≤ status ∧ status < 600 then
        fetch_soup_go env rest (attempt + 1) numDelays sleeps
      else { result := some body, attempts := attempt, sleeps := sleeps }

/-- `VintedScraper._fetch_item_soup`. -/
def fetch_item_soup {α : Type} (env : Nat → FetchAttempt α) : FetchRun α :=
  fetch_soup_go env vinted_delays 1 vinted_delays.length []

/-- Results of the five HTML extractors (`_extract_html_title` etc.) on a
successfully fetched item page. -/
structure Extracted where
  title : Option String := none
  price : Option String := none
  description : Option String := none
  seller : Option String := none
  images : List String := []
deriving Repr, DecidableEq, Inhabited

/-- `VintedScraper._scrape_item_from_html` (lines 211-246): `none` when the
fetch failed or no extractor produced anything; otherwise a payload with
`url` and `images` always present and each text field only when truthy. -/
def vinted_scrape_item_from_html (fetchEnv : Nat → FetchAttempt Extracted)
    (itemUrl : String) : Option Payload :=
  match (fetch_item_soup fetchEnv).result with
  | none => none
  | some ex =>
    if !(strTruthy ex.title || strTruthy ex.price || strTruthy ex.description ||
         ex.images ≠ [] || strTruthy ex.seller) then none
    else
      some { url := some itemUrl, images := ex.images,
             title := if strTruthy ex.title then ex.title else none,
             price := if strTruthy ex.price then ex.price else none,
             description := if strTruthy ex.description then ex.description else none,
             seller := if strTruthy ex.seller then ex.seller else none }

/-- `VintedScraper._fetch_item_via_api` (lines 197-209): one pyVinted search
for the ad URL (`none` models a raised exception, `some []` an empty result),
then `_build_ad_from_item` on the first item. -/
def vinted_fetch_item_via_api (apiEnv : String → Option (List (Option RawPayload)))
    (adUrl : String) : Option Payload :=
  let parsed := urlparseM adUrl
  let scheme := if parsed.scheme = "" then "https" else parsed.scheme
  let domain := if parsed.netloc = "" then "www.vinted.com" else parsed.netloc
  match apiEnv adUrl with
  | none => none
  | some [] => none
  | some (i :: _) => vinted_build_ad_from_item i scheme domain

/-- `VintedScraper.get_ad_data` (lines 117-131): prefer a complete HTML
snapshot; otherwise fall back to the API, returning the bare HTML snapshot
when the API yields nothing, and merging when both exist. -/
def vinted_get_ad_data (htmlEnv : String → Nat → FetchAttempt Extracted)
    (apiEnv : String → Option (List (Option RawPayload))) (adUrl : String) :
    Option Payload :=
  match vinted_scrape_item_from_html (htmlEnv adUrl) adUrl with
  | some h =>
    if vinted_payload_has_core_fields h then some h
    else
      match vinted_fetch_item_via_api apiEnv adUrl with
      | none => some h
      | some a => some (merge_payloads a h)
  | none => vinted_fetch_item_via_api apiEnv adUrl

/-- `VintedScraper._coerce_int_option` (lines 595-613): clamp a parsed
option into `[minValue, maxValue]`, falling back to the default on a
missing key or `ValueError`. -/
def coerce_int_option (options : List (String × String)) (key : String)
    (default minValue maxValue : Nat) : Nat :=
  match options.find? (fun kv => kv.1 = key) with
  | none => default
  | some (_, raw) =>
    match pyParseInt raw with
    | none => default
    | some parsed => (max (minValue : Int) (min parsed (maxValue : Int))).toNat

/-- Result of a Vinted `collect_listings` run: the candidates and the number
of listing-page fetches (`_search_with_retries` calls) issued. -/
structure VintedRun where
  collected : List ListingCandidate
  fetches : Nat
deriving Repr, DecidableEq

/-- HTML enrichment of one accepted item (lines 90-99): merge the snapshot
over the API payload when the item-page scrape succeeds. -/
def vinted_enriched (htmlEnv : String → Nat → FetchAttempt Extracted)
    (adData : Payload) : Payload :=
  match vinted_scrape_item_from_html (htmlEnv (adData.url.getD "")) (adData.url.getD "") with
  | some snap => merge_payloads adData snap
  | none => adData

/-- Per-item step of the page loop in `VintedScraper.collect_listings`
(lines 79-102): build the ad, check `is_known` (marking the page), enrich
via the HTML snapshot, and append the candidate; the `Bool` component is
`page_contains_known`. -/
def vinted_process_item (htmlEnv : String → Nat → FetchAttempt Extracted)
    (isKnown : Option (String → Bool)) (scheme fallbackDomain : String)
    (st : List ListingCandidate × Bool) (item : Option RawPayload) :
    List ListingCandidate × Bool :=
  match vinted_build_ad_from_item item scheme fallbackDomain with
  | none => st
  | some adData =>
    if isKnownCheck isKnown (adData.url.getD "") then (st.1, true)
    else
      (st.1 ++ [{ url := (vinted_enriched htmlEnv adData).url.getD "",
                  data := some (vinted_enriched htmlEnv adData) }], st.2)

/-- The `while page <= max_pages` loop of `VintedScraper.collect_listings`
(lines 63-112); the fuel equals `max_pages - page + 1`, so fuel 0 is exactly
the loop condition failing. -/
def vinted_collect_go (searchEnv : Nat → Nat → SearchAttempt)
    (htmlEnv : String → Nat → FetchAttempt Extracted)
    (isKnown : Option (String → Bool)) (scheme fallbackDomain : String)
    (pageSize : Nat) :
    Nat → Nat → List ListingCandidate → Nat → VintedRun
  | 0, _, acc, fetches => { collected := acc, fetches := fetches }
  | fuel + 1, page, acc, fetches =>
    if ((search_with_retries (searchEnv page)).items).isEmpty then
      { collected := acc, fetches := fetches + 1 }
    else if ((search_with_retries (searchEnv page)).items).length < pageSize then
      { collected := (((search_with_retries (searchEnv page)).items).foldl
          (vinted_process_item htmlEnv isKnown scheme fallbackDomain) (acc, false)).1,
        fetches := fetches + 1 }
    else if (((search_with_retries (searchEnv page)).items).foldl
          (vinted_process_item htmlEnv isKnown scheme fallbackDomain) (acc, false)).2 then
      { collected := (((search_with_retries (searchEnv page)).items).foldl
          (vinted_process_item htmlEnv isKnown scheme fallbackDomain) (acc, false)).1,
        fetches := fetches + 1 }
    else vinted_collect_go searchEnv htmlEnv isKnown scheme fallbackDomain pageSize
           fuel (page + 1)
           (((search_with_retries (searchEnv page)).items).foldl
             (vinted_process_item htmlEnv isKnown scheme fallbackDomain) (acc, false)).1
           (fetches + 1)

/-- Constructor clamp `self.page_size = min(max(1, page_size), 20)`. -/
def vinted_init_page_size (pageSize : Nat) : Nat := min (max 1 pageSize) 20

/-- Constructor clamp `self.max_pages = min(max(1, max_pages), 10)`. -/
def vinted_init_max_pages (maxPages : Nat) : Nat := min (max 1 maxPages) 10

/-- The scheme `collect_listings` derives from the target URL
(`parsed_url.scheme or "https"`). -/
def vintedSchemeOf (targetUrl : String) : String :=
  if (urlparseM targetUrl).scheme = "" then "https" else (urlparseM targetUrl).scheme

/-- The fallback domain `collect_listings` derives from the target URL
(`parsed_url.netloc or "www.vinted.com"`). -/
def vintedDomainOf (targetUrl : String) : String :=
  if (urlparseM targetUrl).netloc = "" then "www.vinted.com" else (urlparseM targetUrl).netloc

/-- The effective page size of a Vinted run: the `page_size` option coerced
into `[1, 20]` over the constructor default. -/
def vintedSize (options : List (String × String)) (ctorPageSize : Nat) : Nat :=
  coerce_int_option options "page_size" (vinted_init_page_size ctorPageSize) 1 20

/-- The effective page budget of a Vinted run: the `max_pages` option
coerced into `[1, 10]` over the constructor default. -/
def vintedBudget (options : List (String × String)) (ctorMaxPages : Nat) : Nat :=
  coerce_int_option options "max_pages" (vinted_init_max_pages ctorMaxPages) 1 10

/-- `VintedScraper.collect_listings` (lines 48-115): coerce the per-target
options, then run the page loop from page 1.  `ctorPageSize`/`ctorMaxPages`
are the constructor arguments (defaults 20 and 10). -/
def vinted_collect_listings (searchEnv : Nat → Nat → SearchAttempt)
    (htmlEnv : String → Nat → FetchAttempt Extracted) (targetUrl : String)
    (options : List (String × String)) (isKnown : Option (String → Bool))
    (ctorPageSize ctorMaxPages : Nat) : VintedRun :=
  vinted_collect_go searchEnv htmlEnv isKnown (vintedSchemeOf targetUrl)
    (vintedDomainOf targetUrl) (vintedSize options ctorPageSize)
    (vintedBudget options ctorMaxPages) 1 [] 0

/-! ## ScraperOrchestrator (`scraper_manager.py`)

The default scraper list is `[OlxScraper, VintedScraper]`; thread-pool
completion order is modelled as submission order (the properties proved
below do not depend on it).  The database is fixed for the cycle: the main
loop only calls `add_url` after `collect_new_ads` returns. -/

/-- `scraper_manager.TargetSpec`. -/
structure TargetSpec where
  url : String
  options : List (String × String) := []

/-- Which registered scraper a target resolved to. -/
inductive ScraperTag
  | olx
  | vinted
deriving Repr, DecidableEq

/-- `scraper.name` per variant. -/
def platformName : ScraperTag → String
  | .olx => "olx"
  | .vinted => "vinted"

/-- The external world for one cycle: the OLX listing/detail fetches, the
Vinted search (per target, page and attempt), the Vinted item-page fetches
and the Vinted API fallback. -/
structure CycleEnv where
  olxList : String → OlxFetch OlxListingPage
  olxDetail : String → OlxFetch OlxDoc
  vintedSearch : String → Nat → Nat → SearchAttempt
  vintedHtml : String → Nat → FetchAttempt Extracted
  vintedApi : String → Option (List (Option RawPayload))

/-- `ScraperOrchestrator._resolve_scraper`: first scraper whose `supports`
accepts the URL (the vinted-warning fallthrough returns `None`). -/
def resolve_scraper (targetUrl : String) : Option ScraperTag :=
  if olx_supports targetUrl then some .olx
  else if vinted_supports targetUrl then some .vinted
  else none

/-- The raw candidate list the resolved scraper's `collect_listings` returns
inside `_scrape_target_url`; the OLX `ValueError` is caught and yields `[]`.
`olxFuel` bounds the uncapped OLX page loop of the model. -/
def target_candidates (env : CycleEnv) (db : List String) (spec : TargetSpec)
    (olxFuel : Nat) : ScraperTag → List ListingCandidate
  | .olx =>
    match olx_collect_listings env.olxList (some (url_exists db)) spec.url spec.options olxFuel with
    | .error _ => []
    | .ok run => run.listings
  | .vinted =>
    (vinted_collect_listings (env.vintedSearch spec.url) env.vintedHtml spec.url
      spec.options (some (url_exists db)) 20 10).collected

/-- `ScraperOrchestrator._scrape_target_url` (lines 180-208): resolve,
collect, then drop candidates with falsy URLs or URLs already present in
the database. -/
def scrape_target_url (env : CycleEnv) (db : List String) (spec : TargetSpec)
    (olxFuel : Nat) : Option ScraperTag × List ListingCandidate :=
  match resolve_scraper spec.url with
  | none => (none, [])
  | some tag =>
    if (target_candidates env db spec olxFuel tag).isEmpty then (some tag, [])
    else (some tag, (target_candidates env db spec olxFuel tag).filter
           (fun c => c.url ≠ "" && !url_exists db c.url))

/-- `ScraperOrchestrator._gather_new_listing_jobs` (lines 155-178): collect
per-target candidates and deduplicate by URL across targets, first
occurrence winning. -/
def gather_new_listing_jobs (env : CycleEnv) (db : List String)
    (specs : List TargetSpec) (olxFuel : Nat) : List (ScraperTag × ListingCandidate) :=
  (specs.foldl
    (fun (st : List (ScraperTag × ListingCandidate) × List String) spec =>
      match scrape_target_url env db spec olxFuel with
      | (none, _) => st
      | (some tag, candidates) =>
        if candidates.isEmpty then st
        else
          candidates.foldl
            (fun (st2 : List (ScraperTag × ListingCandidate) × List String) c =>
              if st2.2.contains c.url then st2
              else (st2.1 ++ [(tag, c)], st2.2 ++ [c.url]))
            st)
    ([], [])).1

/-- `ScraperOrchestrator._fetch_ad_details` (lines 222-255): candidates with
preloaded data become records directly (`setdefault("url", candidate.url)`
fills the key only when absent); the rest are hydrated via their scraper's
`get_ad_data`, skipping `None` results; every record is tagged with the
platform name. -/
def fetch_ad_details (env : CycleEnv) (jobs : List (ScraperTag × ListingCandidate)) :
    List (Payload × String) :=
  let dataAds := jobs.filterMap (fun tc =>
    match tc.2.data with
    | some d =>
      some ({ d with url := if d.url.isSome then d.url else some tc.2.url }, platformName tc.1)
    | none => none)
  let pending := jobs.filterMap (fun tc =>
    match tc.2.data with
    | some _ => none
    | none => some (tc.1, tc.2.url))
  let hydrated := pending.filterMap (fun (tu : ScraperTag × String) =>
    let ad :=
      match tu.1 with
      | .olx => olx_get_ad_data env.olxDetail tu.2
      | .vinted => vinted_get_ad_data env.vintedHtml env.vintedApi tu.2
    match ad with
    | none => none
    | some a =>
      some ({ a with url := if a.url.isSome then a.url else some tu.2 }, platformName tu.1))
  dataAds ++ hydrated

/-- `ScraperOrchestrator.collect_new_ads` (lines 103-121) on an explicit
target-URL list: build the specs, gather the deduplicated new-listing jobs,
then fetch details. -/
def collect_new_ads (env : CycleEnv) (db : List String) (targetUrls : List String)
    (olxFuel : Nat) : List (Payload × String) :=
  let specs := (targetUrls.filter (fun u => u ≠ "" && strTrim u ≠ "")).map
    (fun u => ({ url := strTrim u } : TargetSpec))
  if specs.isEmpty then []
  else
    let jobs := gather_new_listing_jobs env db specs olxFuel
    if jobs.isEmpty then []
    else fetch_ad_details env jobs

/-! ## Auxiliary predicates used by the statements -/

/-- The items one listing-page fetch of the Vinted loop yields. -/
def vintedItemsAt (searchEnv : Nat → Nat → SearchAttempt) (page : Nat) :
    List (Option RawPayload) :=
  (search_with_retries (searchEnv page)).items

/-- Whether a page's item list contains at least one item that builds an ad
whose URL the `is_known` predicate accepts. -/
def vintedPageHasKnown (isKnownF : String → Bool) (scheme dom : String)
    (items : List (Option RawPayload)) : Bool :=
  items.any (fun it =>
    match vinted_build_ad_from_item it scheme dom with
    | some ad => isKnownF (ad.url.getD "")
    | none => false)

/-- Classification used by the retry statements: a fetch attempt that
`_fetch_item_soup` treats as a failure (transport error, or a status
`raise_for_status` raises on). -/
def attemptFails {α : Type} : FetchAttempt α → Bool
  | .exc => true
  | .resp s _ => decide (400 ≤ s ∧ s < 600)

/-- Is a trace event an HTTP request (as opposed to a sleep)? -/
def isRequestEv : Event → Bool
  | .request _ => true
  | .sleep _ => false

/-- Invariant carried by every job the orchestrator's gather step emits:
its URL is not in the database, and its payload shape matches its scraper
(OLX candidates carry no data; Vinted candidates carry data whose `url`
field equals the candidate URL). -/
def jobGoodFor (db : List String) (tc : ScraperTag × ListingCandidate) : Prop :=
  url_exists db tc.2.url = false ∧
    (match tc.1 with
     | .olx => tc.2.data = none
     | .vinted => ∃ d, tc.2.data = some d ∧ d.url = some tc.2.url)

/-! ## Concrete environments for the witnesses and counterexamples -/

/-- An OLX listing-page ad element whose every link selector yields `href`. -/
def olxAdWithHref (href : String) : OlxAdTag :=
  { selHref := fun _ => some href }

/-- An OLX detail document whose every text selector yields `txt` and which
has no images. -/
def olxDocAllText (txt : String) : OlxDoc :=
  { sel := fun _ => some txt, imgSel := fun _ => [] }

/-- Cycle environment for the no-resurfacing witness: one OLX listing page
(last page 1) carrying one known and one new ad, and a detail page that
extracts every field as `"text"`. -/
def envC1 : CycleEnv :=
  { olxList := fun _ => OlxFetch.resp 200
      { lastPage := some 1,
        ads := some [olxAdWithHref "/obyavlenie/known", olxAdWithHref "/obyavlenie/new"] }
    olxDetail := fun _ => OlxFetch.resp 200 (olxDocAllText "text")
    vintedSearch := fun _ _ _ => SearchAttempt.ok []
    vintedHtml := fun _ _ => FetchAttempt.exc
    vintedApi := fun _ => some [] }

/-- Database for the no-resurfacing witness: one previously seen URL. -/
def dbC1 : List String := ["https://www.olx.ua/obyavlenie/known"]

/-- A Vinted API item payload that builds successfully into an ad for `url`. -/
def rawItem (url title : String) : RawPayload :=
  { url := some url, title := some title, description := some "desc",
    price := some (PriceVal.scalar "5") }

/-- Search environment for the pagination witness: pages 1 and 2 each carry
two full-page items, every attempt succeeding at once. -/
def searchEnvC4 : Nat → Nat → SearchAttempt := fun page _ =>
  if page = 1 then
    SearchAttempt.ok [some (rawItem "https://www.vinted.com/items/1-a" "a"),
                      some (rawItem "https://www.vinted.com/items/2-b" "b")]
  else if page = 2 then
    SearchAttempt.ok [some (rawItem "https://www.vinted.com/items/3-c" "c"),
                      some (rawItem "https://www.vinted.com/items/4-d" "d")]
  else SearchAttempt.ok []

/-- Search environment whose page 1 is short (one item against page size 2). -/
def searchEnvC4Short : Nat → Nat → SearchAttempt := fun page _ =>
  if page = 1 then
    SearchAttempt.ok [some (rawItem "https://www.vinted.com/items/1-a" "a")]
  else SearchAttempt.ok []

/-- Item-page fetch environment that always fails (HTML enrichment off). -/
def htmlEnvDown : String → Nat → FetchAttempt Extracted := fun _ _ => FetchAttempt.exc

/-- OLX listing environment for the max-pages counterexample: every page
reports 5 total pages and carries one ad. -/
def envC5olx : String → OlxFetch OlxListingPage := fun _ =>
  OlxFetch.resp 200 { lastPage := some 5, ads := some [olxAdWithHref "/obyavlenie/a"] }

/-- OLX listing environment for the short-page counterexample: every page
reports 3 total pages and carries a single (short) page of one ad. -/
def envC4olx : String → OlxFetch OlxListingPage := fun _ =>
  OlxFetch.resp 200 { lastPage := some 3, ads := some [olxAdWithHref "/obyavlenie/b"] }

/-- OLX listing environment for the rate-limit counterexample: two pages. -/
def envC9olx : String → OlxFetch OlxListingPage := fun _ =>
  OlxFetch.resp 200 { lastPage := some 2, ads := some [olxAdWithHref "/obyavlenie/c"] }

/-- Item-page environment for the partial-hydration counterexample: the
page yields a title and a price but no description. -/
def htmlEnvC2 : String → Nat → FetchAttempt Extracted := fun _ _ =>
  FetchAttempt.resp 200 { title := some "Retro jacket", price := some "15 EUR" }

/-- API environment that returns an empty search result. -/
def apiEnvEmpty : String → Option (List (Option RawPayload)) := fun _ => some []

/-- The partial payload the hydration counterexample returns. -/
def payC2 : Payload :=
  { url := some "https://www.vinted.com/items/9", title := some "Retro jacket",
    price := some "15 EUR" }

/-- The record the OLX hydration witness produces. -/
def payW : Payload :=
  { url := some "https://www.olx.ua/obyavlenie/w", title := some "text",
    price := some "text", description := some "text", seller := some "text" }

/-- Target URL used by the Vinted pagination witnesses. -/
def tgtC4 : String := "https://www.vinted.com/catalog?search_text=x"

/-- Options used by the Vinted pagination witnesses: page size 2, budget 2. -/
def optsC4 : List (String × String) := [("page_size", "2"), ("max_pages", "2")]

/-- A predicate that knows no URL. -/
def kNone : String → Bool := fun _ => false

/-- A predicate that knows exactly the first witness item. -/
def kOne : String → Bool := fun u => u = "https://www.vinted.com/items/1-a"

/-- A search environment whose first attempt succeeds with no items. -/
def searchOkEnv : Nat → SearchAttempt := fun _ => SearchAttempt.ok []

/-- The run the rate-limit witness produces: two back-to-back page requests. -/
def runC9 : OlxRun :=
  { listings := [{ url := "https://www.olx.ua/obyavlenie/c" },
                 { url := "https://www.olx.ua/obyavlenie/c" }],
    events := [Event.request "https://www.olx.ua/x?page=1",
               Event.request "https://www.olx.ua/x?page=2"] }

/-! ## Lemmas about the fetch discipline -/

/-- A failing attempt makes `_fetch_item_soup` move to the next delay step
(on the final attempt a 429 breaks, which coincides with the exhausted
continuation). -/
theorem fetch_go_fail_step {α : Type} (env : Nat → FetchAttempt α) (d : Nat) (rest : List Nat)
    (attempt : Nat) (sleeps : List Nat)
    (hfail : attemptFails (env attempt) = true) (hlast : attempt = 4 → rest = []) :
    fetch_soup_go env (d :: rest) attempt 4 sleeps =
      fetch_soup_go env rest (attempt + 1) 4 (if d ≠ 0 then sleeps ++ [d] else sleeps) := by
  cases h : env attempt with
  | exc => simp [fetch_soup_go, h]
  | resp s b =>
    rw [h] at hfail
    simp only [attemptFails, decide_eq_true_eq] at hfail
    by_cases h429 : s = 429
    · subst h429
      by_cases ha : attempt = 4
      · subst ha
        rw [hlast rfl]
        simp [fetch_soup_go, h]
      · simp [fetch_soup_go, h, ha]
    · simp [fetch_soup_go, h, h429, hfail]

/-- When every attempt fails, `_fetch_item_soup` issues all four attempts,
sleeps 1, 2 and 4 seconds, and yields no data. -/
theorem fetch_soup_all_fail {α : Type} (env : Nat → FetchAttempt α)
    (h : ∀ i, 1 ≤ i → i ≤ 4 → attemptFails (env i) = true) :
    fetch_item_soup env = { result := none, attempts := 4, sleeps := [1, 2, 4] } := by
  have h1 := h 1 (by omega) (by omega)
  have h2 := h 2 (by omega) (by omega)
  have h3 := h 3 (by omega) (by omega)
  have h4 := h 4 (by omega) (by omega)
  show fetch_soup_go env [0, 1, 2, 4] 1 4 [] = _
  rw [fetch_go_fail_step env 0 _ 1 [] h1 (by intro hh; exact absurd hh (by decide))]
  rw [fetch_go_fail_step env 1 _ 2 _ h2 (by intro hh; exact absurd hh (by decide))]
  rw [fetch_go_fail_step env 2 _ 3 _ h3 (by intro hh; exact absurd hh (by decide))]
  rw [fetch_go_fail_step env 4 _ 4 _ h4 (fun _ => rfl)]
  simp [fetch_soup_go]

/-- After one failing attempt, `_fetch_item_soup` retries with the next
backoff step and succeeds on a 200 response. -/
theorem fetch_soup_retry_succeeds {α : Type} (env : Nat → FetchAttempt α) (b : α)
    (h1 : attemptFails (env 1) = true) (h2 : env 2 = FetchAttempt.resp 200 b) :
    fetch_item_soup env = { result := some b, attempts := 2, sleeps := [1] } := by
  show fetch_soup_go env [0, 1, 2, 4] 1 4 [] = _
  rw [fetch_go_fail_step env 0 _ 1 [] h1 (by intro hh; exact absurd hh (by decide))]
  simp only [ne_eq, not_true_eq_false, reduceIte]
  unfold fetch_soup_go
  rw [h2]
  norm_num

/-- A first attempt failing with a status other than 401/403/429 (or with no
status at all) aborts `_search_with_retries` at once: one attempt, no
sleeps, no data. -/
theorem search_abort_other (env : Nat → SearchAttempt) (s : Option Nat)
    (h1 : env 1 = SearchAttempt.exc s) (h403 : s ≠ some 403) (h401 : s ≠ some 401)
    (h429 : s ≠ some 429) :
    search_with_retries env =
      { items := [], attempts := 1, sleeps := [], refreshes := 0 } := by
  unfold search_with_retries vinted_delays search_retries_go
  rw [h1]
  simp [h403, h401, h429]

/-- A first-attempt 403 aborts `_search_with_retries` at once. -/
theorem search_403_aborts (env : Nat → SearchAttempt)
    (h1 : env 1 = SearchAttempt.exc (some 403)) :
    search_with_retries env =
      { items := [], attempts := 1, sleeps := [], refreshes := 0 } := by
  unfold search_with_retries vinted_delays search_retries_go
  rw [h1]
  simp

/-- A first-attempt 429 triggers a cookie refresh and one backoff sleep,
after which a successful second attempt returns its items. -/
theorem search_retry_429 (env : Nat → SearchAttempt) (l : List (Option RawPayload))
    (h1 : env 1 = SearchAttempt.exc (some 429)) (h2 : env 2 = SearchAttempt.ok l) :
    search_with_retries env =
      { items := l, attempts := 2, sleeps := [1], refreshes := 1 } := by
  unfold search_with_retries vinted_delays search_retries_go
  rw [h1]
  norm_num
  unfold search_retries_go
  rw [h2]
  simp

/-- A first attempt that succeeds returns immediately: no sleeps. -/
theorem search_first_ok (env : Nat → SearchAttempt) (l : List (Option RawPayload))
    (h : env 1 = SearchAttempt.ok l) :
    search_with_retries env =
      { items := l, attempts := 1, sleeps := [], refreshes := 0 } := by
  unfold search_with_retries vinted_delays search_retries_go
  rw [h]
  simp

/-! ## Lemmas about option coercion and the Vinted page loop -/

/-- The coerced option value is at least the `min_value` clamp (1). -/
theorem coerce_int_option_pos (options : List (String × String)) (key : String)
    (default maxValue : Nat) (hd : 1 ≤ default) :
    1 ≤ coerce_int_option options key default 1 maxValue := by
  unfold coerce_int_option
  split
  · exact hd
  · split
    · exact hd
    · omega

/-- The coerced option value never exceeds the `max_value` clamp. -/
theorem coerce_int_option_le (options : List (String × String)) (key : String)
    (default maxValue : Nat) (hd : default ≤ maxValue) (hm : 1 ≤ maxValue) :
    coerce_int_option options key default 1 maxValue ≤ maxValue := by
  unfold coerce_int_option
  split
  · exact hd
  · split
    · exact hd
    · omega

/-- The constructor clamp for `max_pages` lies in `[1, 10]`. -/
theorem vinted_init_max_pages_bounds (mp : Nat) :
    1 ≤ vinted_init_max_pages mp ∧ vinted_init_max_pages mp ≤ 10 := by
  unfold vinted_init_max_pages
  omega

/-- The Vinted page loop issues at most `fuel` further fetches. -/
theorem vinted_go_fetch_bound (searchEnv : Nat → Nat → SearchAttempt)
    (htmlEnv : String → Nat → FetchAttempt Extracted) (isKnown : Option (String → Bool))
    (scheme dom : String) (pageSize : Nat) :
    ∀ fuel page acc f,
      (vinted_collect_go searchEnv htmlEnv isKnown scheme dom pageSize fuel page acc f).fetches ≤
        f + fuel := by
  intro fuel
  induction fuel with
  | zero => intro page acc f; simp [vinted_collect_go]
  | succ n ih =>
    intro page acc f
    unfold vinted_collect_go
    split
    · simp
    · split
      · simp
      · split
        · simp
        · exact le_trans (ih _ _ _) (by omega)

/-- The `page_contains_known` component of the per-page fold. -/
theorem vinted_fold_known (htmlEnv : String → Nat → FetchAttempt Extracted)
    (isKnownF : String → Bool) (scheme dom : String) :
    ∀ (items : List (Option RawPayload)) (acc : List ListingCandidate) (k : Bool),
      (items.foldl (vinted_process_item htmlEnv (some isKnownF) scheme dom) (acc, k)).2 =
        (k || vintedPageHasKnown isKnownF scheme dom items) := by
  intro items
  induction items with
  | nil => intro acc k; simp [vintedPageHasKnown]
  | cons it rest ih =>
    intro acc k
    rw [List.foldl_cons]
    cases hb : vinted_build_ad_from_item it scheme dom with
    | none =>
      rw [show vinted_process_item htmlEnv (some isKnownF) scheme dom (acc, k) it = (acc, k) by
        simp [vinted_process_item, isKnownCheck, hb]]
      rw [ih]
      simp [vintedPageHasKnown, hb]
    | some ad =>
      by_cases hk : isKnownF (ad.url.getD "") = true
      · rw [show vinted_process_item htmlEnv (some isKnownF) scheme dom (acc, k) it = (acc, true) by
          simp [vinted_process_item, isKnownCheck, hb, hk]]
        rw [ih]
        simp [vintedPageHasKnown, hb, hk]
      · rw [Bool.not_eq_true] at hk
        rw [show vinted_process_item htmlEnv (some isKnownF) scheme dom (acc, k) it =
            (acc ++ [{ url := (vinted_enriched htmlEnv ad).url.getD "",
                       data := some (vinted_enriched htmlEnv ad) }], k) by
          simp [vinted_process_item, isKnownCheck, hb, hk]]
        rw [ih]
        simp [vintedPageHasKnown, hb, hk]

/-- When every page in reach is full and known-free, the Vinted loop runs
its whole budget: one fetch per remaining page. -/
theorem vinted_go_full (searchEnv : Nat → Nat → SearchAttempt)
    (htmlEnv : String → Nat → FetchAttempt Extracted) (isKnownF : String → Bool)
    (scheme dom : String) (S : Nat) (hS : 0 < S) :
    ∀ fuel page acc f,
      (∀ p, page ≤ p → p < page + fuel →
        (vintedItemsAt searchEnv p).length = S ∧
        vintedPageHasKnown isKnownF scheme dom (vintedItemsAt searchEnv p) = false) →
      (vinted_collect_go searchEnv htmlEnv (some isKnownF) scheme dom S fuel page acc f).fetches =
        f + fuel := by
  intro fuel
  induction fuel with
  | zero => intro page acc f _; simp [vinted_collect_go]
  | succ n ih =>
    intro page acc f h
    obtain ⟨hlen, hknown⟩ := h page (le_refl _) (by omega)
    unfold vintedItemsAt at hlen hknown
    have hne : ((search_with_retries (searchEnv page)).items).isEmpty = false := by
      cases hl : (search_with_retries (searchEnv page)).items with
      | nil => rw [hl] at hlen; simp at hlen; omega
      | cons a as => simp
    unfold vinted_collect_go
    rw [hne, hlen]
    simp only [Bool.false_eq_true, reduceIte, Nat.lt_irrefl]
    rw [vinted_fold_known]
    rw [hknown]
    simp only [Bool.false_or, Bool.false_eq_true, reduceIte]
    rw [ih (page + 1) _ (f + 1) (fun p hp1 hp2 => h p (by omega) (by omega))]
    omega

/-- When pages before `k` are full and known-free and page `k` is short or
contains a known item, the Vinted loop stops at page `k`: exactly `k`
further fetches from page `page`. -/
theorem vinted_go_stop (searchEnv : Nat → Nat → SearchAttempt)
    (htmlEnv : String → Nat → FetchAttempt Extracted) (isKnownF : String → Bool)
    (scheme dom : String) (S : Nat) (hS : 0 < S) :
    ∀ fuel page acc f k, page ≤ k → k < page + fuel →
      (∀ p, page ≤ p → p < k →
        (vintedItemsAt searchEnv p).length = S ∧
        vintedPageHasKnown isKnownF scheme dom (vintedItemsAt searchEnv p) = false) →
      ((vintedItemsAt searchEnv k).length < S ∨
        vintedPageHasKnown isKnownF scheme dom (vintedItemsAt searchEnv k) = true) →
      (vinted_collect_go searchEnv htmlEnv (some isKnownF) scheme dom S fuel page acc f).fetches =
        f + (k + 1 - page) := by
  intro fuel
  induction fuel with
  | zero => intro page acc f k h1 h2 _ _; omega
  | succ n ih =>
    intro page acc f k hpk hkf hfull hstop
    by_cases hpage : page = k
    · subst hpage
      unfold vinted_collect_go
      by_cases hemp : ((search_with_retries (searchEnv page)).items).isEmpty = true
      · rw [hemp]
        simp only [reduceIte]
        omega
      · rw [Bool.not_eq_true] at hemp
        rw [hemp]
        simp only [Bool.false_eq_true, reduceIte]
        by_cases hshort : ((search_with_retries (searchEnv page)).items).length < S
        · rw [if_pos hshort]
          dsimp only
          omega
        · rw [if_neg hshort]
          have hkn : vintedPageHasKnown isKnownF scheme dom (vintedItemsAt searchEnv page) = true := by
            rcases hstop with hs | hk
            · exact absurd hs (by unfold vintedItemsAt; exact hshort)
            · exact hk
          rw [vinted_fold_known]
          unfold vintedItemsAt at hkn
          rw [hkn]
          simp only [Bool.or_true, reduceIte]
          omega
    · have hlt : page < k := lt_of_le_of_ne hpk hpage
      obtain ⟨hlen, hknown⟩ := hfull page (le_refl _) hlt
      unfold vintedItemsAt at hlen hknown
      have hne : ((search_with_retries (searchEnv page)).items).isEmpty = false := by
        cases hl : (search_with_retries (searchEnv page)).items with
        | nil => rw [hl] at hlen; simp at hlen; omega
        | cons a as => simp
      unfold vinted_collect_go
      rw [hne, hlen]
      simp only [Bool.false_eq_true, reduceIte, Nat.lt_irrefl]
      rw [vinted_fold_known]
      rw [hknown]
      simp only [Bool.false_or, Bool.false_eq_true, reduceIte]
      rw [ih (page + 1) _ (f + 1) k (by omega) (by omega)
            (fun p hp1 hp2 => hfull p (by omega) hp2) hstop]
      omega

/-- The OLX pagination loop's trace consists of requests only: the fetch
path contains no sleeping at all. -/
theorem olx_go_events_requests (env : String → OlxFetch OlxListingPage)
    (isKnown : Option (String → Bool)) (targetUrl targetNetloc : String) :
    ∀ fuel page acc evs, evs.all isRequestEv = true →
      (olx_collect_go env isKnown targetUrl targetNetloc fuel page acc evs).events.all
        isRequestEv = true := by
  intro fuel
  induction fuel with
  | zero => intro page acc evs h; exact h
  | succ n ih =>
    intro page acc evs h
    unfold olx_collect_go
    have happ : (evs ++ [Event.request (olx_build_page_url targetUrl page)]).all
        isRequestEv = true := by
      rw [List.all_append, h]
      simp [isRequestEv]
    cases olxAdsOf (olxPageAt env targetUrl page) with
    | none => exact happ
    | some adList =>
      simp only
      split
      · exact happ
      · split
        · exact happ
        · exact ih (page + 1) _ _ happ

/-! ## Lemmas about extraction and hydration -/

/-- `_extract_text` only ever returns non-empty text. -/
theorem olx_extract_text_ne (doc : OlxDoc) :
    ∀ (sels : List String) (t : String), olx_extract_text doc sels = some t → t ≠ "" := by
  intro sels
  induction sels with
  | nil => intro t h; simp [olx_extract_text] at h
  | cons s rest ih =>
    intro t h
    unfold olx_extract_text at h ih
    rw [List.findSome?_cons] at h
    cases hs : doc.sel s with
    | none =>
      rw [hs] at h
      dsimp only at h
      exact ih t h
    | some v =>
      rw [hs] at h
      dsimp only at h
      by_cases hv : v = ""
      · rw [if_neg (by simp [hv])] at h
        dsimp only at h
        exact ih t h
      · rw [if_pos hv] at h
        dsimp only at h
        injection h with h
        exact h ▸ hv

/-- A record `OlxScraper.get_ad_data` returns has non-empty title, price
and description, and its `url` is the requested ad URL. -/
theorem olx_get_ad_data_spec (env : String → OlxFetch OlxDoc) (adUrl : String)
    (r : Payload) (h : olx_get_ad_data env adUrl = some r) :
    vinted_payload_has_core_fields r = true ∧ r.url = some adUrl := by
  unfold olx_get_ad_data at h
  cases hc : (olx_parse_content (env adUrl)).1 with
  | none => rw [hc] at h; cases h
  | some content =>
    rw [hc] at h
    dsimp only at h
    cases hb : (decide (olx_extract_text content olx_title_selectors = none) ||
        decide (olx_extract_text content olx_price_selectors = none) ||
        decide (olx_extract_text content olx_description_selectors = none)) with
    | true => rw [hb] at h; simp at h
    | false =>
      rw [hb] at h
      simp only [Bool.false_eq_true, reduceIte, Option.some.injEq] at h
      simp only [Bool.or_eq_false_iff, decide_eq_false_iff_not] at hb
      obtain ⟨⟨ht, hp⟩, hd⟩ := hb
      obtain ⟨tv, htv⟩ := Option.ne_none_iff_exists'.mp ht
      obtain ⟨pv, hpv⟩ := Option.ne_none_iff_exists'.mp hp
      obtain ⟨dv, hdv⟩ := Option.ne_none_iff_exists'.mp hd
      subst h
      constructor
      · simp only [vinted_payload_has_core_fields, htv, hpv, hdv, strTruthy]
        simp [olx_extract_text_ne content _ _ htv, olx_extract_text_ne content _ _ hpv,
              olx_extract_text_ne content _ _ hdv]
      · rfl

/-- A record `_build_ad_from_item` returns has truthy core fields and a
truthy URL. -/
theorem vinted_build_spec (it : Option RawPayload) (scheme dom : String) (p : Payload)
    (h : vinted_build_ad_from_item it scheme dom = some p) :
    vinted_payload_has_core_fields p = true ∧ strTruthy p.url = true := by
  unfold vinted_build_ad_from_item at h
  cases it with
  | none => cases h
  | some raw =>
    dsimp only at h
    cases hu : (!strTruthy (vinted_ad_url raw scheme dom)) with
    | true => rw [hu] at h; simp at h
    | false =>
      rw [hu] at h
      simp only [Bool.false_eq_true, reduceIte] at h
      cases hcore : (!(strTruthy (pyOr2 raw.title raw.name) &&
          strTruthy (vinted_ad_description raw) &&
          strTruthy (vinted_format_price raw))) with
      | true => rw [hcore] at h; simp at h
      | false =>
        rw [hcore] at h
        simp only [Bool.false_eq_true, reduceIte, Option.some.injEq] at h
        rw [Bool.not_eq_false'] at hu hcore
        subst h
        refine ⟨?_, hu⟩
        simp only [vinted_payload_has_core_fields]
        simp only [Bool.and_eq_true] at hcore ⊢
        exact ⟨⟨hcore.1.1, hcore.1.2⟩, hcore.2⟩

/-- A truthy base field stays truthy through the merge. -/
theorem strTruthy_pickField (b o : Option String) (hb : strTruthy b = true) :
    strTruthy (pickField b o) = true := by
  unfold pickField
  by_cases ho : strTruthy o = true
  · simp [ho]
  · rw [Bool.not_eq_true] at ho
    simp [ho, hb]

/-- Merging any override over a payload with truthy core fields yields a
payload with truthy core fields. -/
theorem merge_preserves_core (a b : Payload) (h : vinted_payload_has_core_fields a = true) :
    vinted_payload_has_core_fields (merge_payloads a b) = true := by
  simp only [vinted_payload_has_core_fields, Bool.and_eq_true] at h ⊢
  exact ⟨⟨strTruthy_pickField _ _ h.1.1, strTruthy_pickField _ _ h.1.2⟩,
         strTruthy_pickField _ _ h.2⟩

/-- The URL key of an HTML snapshot is the fetched item URL. -/
theorem vinted_scrape_url (fe : Nat → FetchAttempt Extracted) (itemUrl : String)
    (p : Payload) (h : vinted_scrape_item_from_html fe itemUrl = some p) :
    p.url = some itemUrl := by
  unfold vinted_scrape_item_from_html at h
  cases hr : (fetch_item_soup fe).result with
  | none => rw [hr] at h; cases h
  | some ex =>
    rw [hr] at h
    dsimp only at h
    split at h
    · cases h
    · injection h with h
      subst h
      rfl

/-- HTML enrichment keeps the ad URL. -/
theorem vinted_enriched_url (he : String → Nat → FetchAttempt Extracted)
    (adData : Payload) (u : String) (h : adData.url = some u) :
    (vinted_enriched he adData).url = some u := by
  unfold vinted_enriched
  cases hs : vinted_scrape_item_from_html (he (adData.url.getD "")) (adData.url.getD "") with
  | none => exact h
  | some snap =>
    have hsnap : snap.url = some (adData.url.getD "") := vinted_scrape_url _ _ _ hs
    rw [h] at hsnap
    simp only [Option.getD_some] at hsnap
    dsimp only
    simp only [merge_payloads, pickField, hsnap]
    by_cases hu : strTruthy (some u) = true
    · simp [hu]
    · rw [Bool.not_eq_true] at hu
      simp [hu, h]

/-! ## Candidate-shape lemmas -/

/-- Every candidate the Vinted per-page fold appends carries data whose
`url` key equals the candidate URL. -/
theorem vinted_fold_candidates (htmlEnv : String → Nat → FetchAttempt Extracted)
    (isKnown : Option (String → Bool)) (scheme dom : String) :
    ∀ (items : List (Option RawPayload)) (st : List ListingCandidate × Bool)
      (c : ListingCandidate),
      c ∈ (items.foldl (vinted_process_item htmlEnv isKnown scheme dom) st).1 →
      c ∈ st.1 ∨ ∃ d, c.data = some d ∧ d.url = some c.url := by
  intro items
  induction items with
  | nil => intro st c hc; exact Or.inl hc
  | cons it rest ih =>
    intro st c hc
    rw [List.foldl_cons] at hc
    rcases ih _ c hc with hmem | hshape
    · unfold vinted_process_item at hmem
      cases hb : vinted_build_ad_from_item it scheme dom with
      | none =>
        rw [hb] at hmem
        exact Or.inl hmem
      | some ad =>
        rw [hb] at hmem
        dsimp only at hmem
        split at hmem
        · exact Or.inl hmem
        · dsimp only at hmem
          rw [List.mem_append] at hmem
          rcases hmem with hmem | hnew
          · exact Or.inl hmem
          · right
            rw [List.mem_singleton] at hnew
            subst hnew
            obtain ⟨-, hurl⟩ := vinted_build_spec it scheme dom ad hb
            obtain ⟨u, hu⟩ : ∃ u, ad.url = some u := by
              cases hau : ad.url with
              | none => rw [hau] at hurl; simp [strTruthy] at hurl
              | some u => exact ⟨u, rfl⟩
            have he : (vinted_enriched htmlEnv ad).url = some u :=
              vinted_enriched_url htmlEnv ad u hu
            exact ⟨vinted_enriched htmlEnv ad, rfl, by rw [he]; simp [he]⟩
    · exact Or.inr hshape

/-- Every candidate the Vinted page loop collects either was already
accumulated or carries data whose `url` equals the candidate URL. -/
theorem vinted_go_candidates (searchEnv : Nat → Nat → SearchAttempt)
    (htmlEnv : String → Nat → FetchAttempt Extracted) (isKnown : Option (String → Bool))
    (scheme dom : String) (S : Nat) :
    ∀ fuel page acc f c,
      c ∈ (vinted_collect_go searchEnv htmlEnv isKnown scheme dom S fuel page acc f).collected →
      c ∈ acc ∨ ∃ d, c.data = some d ∧ d.url = some c.url := by
  intro fuel
  induction fuel with
  | zero => intro page acc f c hc; exact Or.inl hc
  | succ n ih =>
    intro page acc f c hc
    unfold vinted_collect_go at hc
    split at hc
    · exact Or.inl hc
    · split at hc
      · exact vinted_fold_candidates htmlEnv isKnown scheme dom _ _ c hc
      · split at hc
        · exact vinted_fold_candidates htmlEnv isKnown scheme dom _ _ c hc
        · rcases ih _ _ _ c hc with hmem | hshape
          · exact vinted_fold_candidates htmlEnv isKnown scheme dom _ _ c hmem
          · exact Or.inr hshape

/-- The per-ad step of the OLX loop either leaves the accumulator unchanged,
marks the page known, or appends one data-free candidate. -/
theorem olx_process_ad_cases (isKnown : Option (String → Bool)) (targetNetloc : String)
    (st : List ListingCandidate × Bool) (ad : OlxAdTag) :
    (olx_process_ad isKnown targetNetloc st ad).1 = st.1 ∨
    ∃ href, (olx_process_ad isKnown targetNetloc st ad).1 =
      st.1 ++ [{ url := href, data := none }] := by
  unfold olx_process_ad
  cases olx_find_listing_link ad with
  | none => exact Or.inl rfl
  | some href =>
    dsimp only
    split
    · exact Or.inl rfl
    · split
      · exact Or.inl rfl
      · split
        · exact Or.inl rfl
        · exact Or.inr ⟨_, rfl⟩

/-- Every candidate the OLX per-page fold appends carries no preloaded data. -/
theorem olx_fold_candidates (isKnown : Option (String → Bool)) (targetNetloc : String) :
    ∀ (adList : List OlxAdTag) (st : List ListingCandidate × Bool) (c : ListingCandidate),
      c ∈ (adList.foldl (olx_process_ad isKnown targetNetloc) st).1 →
      c ∈ st.1 ∨ c.data = none := by
  intro adList
  induction adList with
  | nil => intro st c hc; exact Or.inl hc
  | cons ad rest ih =>
    intro st c hc
    rw [List.foldl_cons] at hc
    rcases ih _ c hc with hmem | hshape
    · rcases olx_process_ad_cases isKnown targetNetloc st ad with heq | ⟨href, heq⟩
      · rw [heq] at hmem
        exact Or.inl hmem
      · rw [heq, List.mem_append] at hmem
        rcases hmem with hmem | hnew
        · exact Or.inl hmem
        · right
          rw [List.mem_singleton] at hnew
          subst hnew
          rfl
    · exact Or.inr hshape

/-- Every candidate the OLX page loop collects either was already
accumulated or carries no preloaded data. -/
theorem olx_go_candidates (env : String → OlxFetch OlxListingPage)
    (isKnown : Option (String → Bool)) (targetUrl targetNetloc : String) :
    ∀ fuel page acc evs c,
      c ∈ (olx_collect_go env isKnown targetUrl targetNetloc fuel page acc evs).listings →
      c ∈ acc ∨ c.data = none := by
  intro fuel
  induction fuel with
  | zero => intro page acc evs c hc; exact Or.inl hc
  | succ n ih =>
    intro page acc evs c hc
    unfold olx_collect_go at hc
    cases hads : olxAdsOf (olxPageAt env targetUrl page) with
    | none =>
      rw [hads] at hc
      exact Or.inl hc
    | some adList =>
      rw [hads] at hc
      dsimp only at hc
      by_cases hal : olxAtLastPage (olxLastOf (olxPageAt env targetUrl page)) page = true
      · rw [if_pos hal] at hc
        exact olx_fold_candidates isKnown targetNetloc _ _ c hc
      · rw [if_neg hal] at hc
        by_cases hkn : (adList.foldl (olx_process_ad isKnown targetNetloc) (acc, false)).2 = true
        · rw [if_pos hkn] at hc
          exact olx_fold_candidates isKnown targetNetloc _ _ c hc
        · rw [if_neg hkn] at hc
          rcases ih _ _ _ c hc with hmem | hshape
          · exact olx_fold_candidates isKnown targetNetloc _ _ c hmem
          · exact Or.inr hshape

/-! ## Orchestrator invariants -/

/-- Every candidate `_scrape_target_url` returns for a resolved scraper has
a non-empty URL absent from the database, and the payload shape of its
scraper. -/
theorem scrape_target_good (env : CycleEnv) (db : List String) (spec : TargetSpec)
    (olxFuel : Nat) (tag : ScraperTag) (cands : List ListingCandidate)
    (h : scrape_target_url env db spec olxFuel = (some tag, cands)) :
    ∀ c ∈ cands, jobGoodFor db (tag, c) := by
  intro c hc
  unfold scrape_target_url at h
  cases hres : resolve_scraper spec.url with
  | none => rw [hres] at h; cases h
  | some tag0 =>
    rw [hres] at h
    dsimp only at h
    split at h
    · rw [Prod.mk.injEq] at h
      obtain ⟨ht, hc2⟩ := h
      injection ht with ht
      subst ht
      rw [← hc2] at hc
      exact absurd hc (List.not_mem_nil c)
    · rw [Prod.mk.injEq] at h
      obtain ⟨ht, hc2⟩ := h
      injection ht with ht
      subst ht
      subst hc2
      rw [List.mem_filter] at hc
      obtain ⟨hbase, hcond⟩ := hc
      rw [Bool.and_eq_true] at hcond
      obtain ⟨hne, hexists⟩ := hcond
      rw [Bool.not_eq_true'] at hexists
      refine ⟨hexists, ?_⟩
      cases tag0 with
      | olx =>
        dsimp only
        unfold target_candidates at hbase
        cases hcl : olx_collect_listings env.olxList (some (url_exists db)) spec.url
            spec.options olxFuel with
        | error e => rw [hcl] at hbase; cases hbase
        | ok run =>
          rw [hcl] at hbase
          dsimp only at hbase
          rcases olx_go_candidates env.olxList (some (url_exists db)) spec.url
              (netlocOf spec.url) olxFuel 1 [] [] c (by
                unfold olx_collect_listings at hcl
                dsimp only at hcl
                split at hcl
                · cases hcl
                · injection hcl with hcl
                  rw [← hcl] at hbase
                  exact hbase) with hmem | hshape
          · cases hmem
          · exact hshape
      | vinted =>
        dsimp only
        unfold target_candidates at hbase
        rcases vinted_go_candidates (env.vintedSearch spec.url) env.vintedHtml
            (some (url_exists db)) (vintedSchemeOf spec.url) (vintedDomainOf spec.url)
            (coerce_int_option spec.options "page_size" (vinted_init_page_size 20) 1 20)
            (coerce_int_option spec.options "max_pages" (vinted_init_max_pages 10) 1 10)
            1 [] 0 c hbase with hmem | hshape
        · cases hmem
        · exact hshape

/-- Every job the gather step accumulates satisfies `jobGoodFor`. -/
theorem gather_inner_good (db : List String) (tag : ScraperTag)
    (cands : List ListingCandidate) (hc : ∀ c ∈ cands, jobGoodFor db (tag, c)) :
    ∀ (st : List (ScraperTag × ListingCandidate) × List String),
      (∀ tc ∈ st.1, jobGoodFor db tc) →
      ∀ tc ∈ (cands.foldl
        (fun (st2 : List (ScraperTag × ListingCandidate) × List String) c =>
          if st2.2.contains c.url then st2
          else (st2.1 ++ [(tag, c)], st2.2 ++ [c.url])) st).1, jobGoodFor db tc := by
  induction cands with
  | nil => intro st hst tc htc; exact hst tc htc
  | cons c rest ih =>
    intro st hst tc htc
    rw [List.foldl_cons] at htc
    refine ih (fun c' hc' => hc c' (List.mem_cons_of_mem _ hc')) _ ?_ tc htc
    intro tc' htc'
    split at htc'
    · exact hst tc' htc'
    · rw [List.mem_append] at htc'
      rcases htc' with hmem | hnew
      · exact hst tc' hmem
      · rw [List.mem_singleton] at hnew
        subst hnew
        exact hc c (List.mem_cons_self _ _)

/-- Every job `_gather_new_listing_jobs` returns satisfies `jobGoodFor`. -/
theorem gather_jobs_good (env : CycleEnv) (db : List String) (olxFuel : Nat) :
    ∀ (specs : List TargetSpec) (st : List (ScraperTag × ListingCandidate) × List String),
      (∀ tc ∈ st.1, jobGoodFor db tc) →
      ∀ tc ∈ (specs.foldl
        (fun (st : List (ScraperTag × ListingCandidate) × List String) spec =>
          match scrape_target_url env db spec olxFuel with
          | (none, _) => st
          | (some tag, candidates) =>
            if candidates.isEmpty then st
            else
              candidates.foldl
                (fun (st2 : List (ScraperTag × ListingCandidate) × List String) c =>
                  if st2.2.contains c.url then st2
                  else (st2.1 ++ [(tag, c)], st2.2 ++ [c.url]))
                st) st).1, jobGoodFor db tc := by
  intro specs
  induction specs with
  | nil => intro st hst tc htc; exact hst tc htc
  | cons spec rest ih =>
    intro st hst tc htc
    rw [List.foldl_cons] at htc
    refine ih _ ?_ tc htc
    cases hres : scrape_target_url env db spec olxFuel with
    | mk otag cands =>
      cases otag with
      | none =>
        dsimp only
        exact hst
      | some tag =>
        dsimp only
        split
        · exact hst
        · exact gather_inner_good db tag cands
            (scrape_target_good env db spec olxFuel tag cands hres) st hst

/-- Every record `_fetch_ad_details` produces from good jobs carries a URL
that is absent from the database. -/
theorem fetch_details_urls (env : CycleEnv) (db : List String)
    (jobs : List (ScraperTag × ListingCandidate))
    (hg : ∀ tc ∈ jobs, jobGoodFor db tc) :
    ∀ rec ∈ fetch_ad_details env jobs,
      ∃ v, rec.1.url = some v ∧ url_exists db v = false := by
  intro rec hrec
  unfold fetch_ad_details at hrec
  rw [List.mem_append] at hrec
  rcases hrec with hdata | hhyd
  · rw [List.mem_filterMap] at hdata
    obtain ⟨tc, htc, heq⟩ := hdata
    obtain ⟨tag, cand⟩ := tc
    obtain ⟨hex, hshape⟩ := hg _ htc
    cases hd : cand.data with
    | none => rw [hd] at heq; cases heq
    | some d =>
      rw [hd] at heq
      dsimp only at heq
      injection heq with heq
      subst heq
      cases tag with
      | olx =>
        dsimp only [jobGoodFor] at hshape
        rw [hd] at hshape
        cases hshape
      | vinted =>
        dsimp only [jobGoodFor] at hshape
        obtain ⟨d', hd', hurl⟩ := hshape
        rw [hd] at hd'
        injection hd' with hd'
        subst hd'
        refine ⟨cand.url, ?_, hex⟩
        dsimp only
        rw [hurl]
        simp
  · rw [List.mem_filterMap] at hhyd
    obtain ⟨tu, htu, heq⟩ := hhyd
    rw [List.mem_filterMap] at htu
    obtain ⟨tc, htc, hpend⟩ := htu
    obtain ⟨tag, cand⟩ := tc
    obtain ⟨hex, hshape⟩ := hg _ htc
    cases hd : cand.data with
    | some d => rw [hd] at hpend; cases hpend
    | none =>
      rw [hd] at hpend
      dsimp only at hpend
      injection hpend with hpend
      subst hpend
      cases tag with
      | vinted =>
        dsimp only [jobGoodFor] at hshape
        obtain ⟨d', hd', -⟩ := hshape
        rw [hd] at hd'
        cases hd'
      | olx =>
        dsimp only at heq
        cases had : olx_get_ad_data env.olxDetail cand.url with
        | none => rw [had] at heq; cases heq
        | some a =>
          rw [had] at heq
          dsimp only at heq
          injection heq with heq
          subst heq
          obtain ⟨-, haurl⟩ := olx_get_ad_data_spec env.olxDetail cand.url a had
          refine ⟨cand.url, ?_, hex⟩
          dsimp only
          rw [haurl]
          simp

/-- Every record `collect_new_ads` returns carries a URL that is absent
from the database at the start of the cycle. -/
theorem collect_new_ads_urls (env : CycleEnv) (db : List String)
    (targets : List String) (olxFuel : Nat) :
    ∀ rec ∈ collect_new_ads env db targets olxFuel,
      ∃ v, rec.1.url = some v ∧ url_exists db v = false := by
  intro rec hrec
  unfold collect_new_ads at hrec
  dsimp only at hrec
  split at hrec
  · exact absurd hrec (List.not_mem_nil rec)
  · split at hrec
    · exact absurd hrec (List.not_mem_nil rec)
    · refine fetch_details_urls env db _ ?_ rec hrec
      unfold gather_new_listing_jobs
      exact gather_jobs_good env db olxFuel _ ([], [])
        (fun tc h => absurd h (List.not_mem_nil tc))

/-- The effective page budget is at least 1. -/
theorem vintedBudget_pos (options : List (String × String)) (mp : Nat) :
    1 ≤ vintedBudget options mp := by
  unfold vintedBudget
  exact coerce_int_option_pos options "max_pages" (vinted_init_max_pages mp) 10
    (vinted_init_max_pages_bounds mp).1

/-- The effective page budget never exceeds the variant ceiling of 10. -/
theorem vintedBudget_le (options : List (String × String)) (mp : Nat) :
    vintedBudget options mp ≤ 10 := by
  unfold vintedBudget
  exact coerce_int_option_le options "max_pages" (vinted_init_max_pages mp) 10
    (vinted_init_max_pages_bounds mp).2 (by omega)

/-- The effective page size is at least 1. -/
theorem vintedSize_pos (options : List (String × String)) (ps : Nat) :
    1 ≤ vintedSize options ps := by
  unfold vintedSize
  refine coerce_int_option_pos options "page_size" (vinted_init_page_size ps) 20 ?_
  unfold vinted_init_page_size
  omega

/-! ## Claims -/

/-- C1: no re-surfacing — for every URL `u` with `url_exists db u = true`
before a collection cycle, `u` never appears as the `url` of any record in
the batch `collect_new_ads` returns for that cycle, whatever the scraped
listing pages contain.  The candidate filter of `_scrape_target_url` drops
every known URL, and both hydration paths stamp each record with its
candidate's URL. -/
theorem c1_no_resurfacing (env : CycleEnv) (db : List String) (targets : List String)
    (olxFuel : Nat) (u : String) (hu : url_exists db u = true) :
    ∀ rec ∈ collect_new_ads env db targets olxFuel, rec.1.url ≠ some u := by
  intro rec hrec heq
  obtain ⟨v, hv, hvex⟩ := collect_new_ads_urls env db targets olxFuel rec hrec
  rw [hv] at heq
  injection heq with heq
  subst heq
  rw [hu] at hvex
  cases hvex

/-- Witness for the no-resurfacing theorem: a concrete cycle over one OLX
target whose listing page carries one known and one new ad; the known URL
does not reappear on the record the cycle yields. -/
theorem c1_no_resurfacing_witness :
    url_exists dbC1 "https://www.olx.ua/obyavlenie/known" = true ∧
    (({ url := some "https://www.olx.ua/obyavlenie/new", title := some "text",
        price := some "text", description := some "text", seller := some "text",
        images := [] } : Payload), "olx") ∈
      collect_new_ads envC1 dbC1 ["https://www.olx.ua/list"] 5 ∧
    ((({ url := some "https://www.olx.ua/obyavlenie/new", title := some "text",
         price := some "text", description := some "text", seller := some "text",
         images := [] } : Payload), "olx") : Payload × String).1.url ≠
      some "https://www.olx.ua/obyavlenie/known" :=
  ⟨by decide, by decide,
   c1_no_resurfacing envC1 dbC1 ["https://www.olx.ua/list"] 5
     "https://www.olx.ua/obyavlenie/known" (by decide) _ (by decide)⟩

/-- C2 counterexample: hydrating a Vinted item page that yields a title and
a price but no description, while the API search returns no items, makes
`get_ad_data` return the partial HTML snapshot — a record with no
description — instead of `None`.  This refutes the claim that hydration
never returns a partial record. -/
theorem c2_counterexample :
    vinted_get_ad_data htmlEnvC2 apiEnvEmpty "https://www.vinted.com/items/9" = some payC2 ∧
    payC2.description = none ∧
    vinted_payload_has_core_fields payC2 = false := by
  refine ⟨by decide, rfl, rfl⟩

/-- C2 (amended): every record `OlxScraper.get_ad_data` returns has truthy
(non-empty) title, price and description; `VintedScraper.get_ad_data`
guarantees the same on every path except one — when the HTML snapshot
lacks a core field and the API fallback returns nothing, the partial HTML
snapshot itself is returned. -/
theorem c2_required_fields_amended :
    (∀ (envD : String → OlxFetch OlxDoc) (adUrl : String) (r : Payload),
      olx_get_ad_data envD adUrl = some r → vinted_payload_has_core_fields r = true) ∧
    (∀ (htmlEnv : String → Nat → FetchAttempt Extracted)
       (apiEnv : String → Option (List (Option RawPayload))) (adUrl : String) (r : Payload),
      vinted_get_ad_data htmlEnv apiEnv adUrl = some r →
      vinted_payload_has_core_fields r = true ∨
        (vinted_fetch_item_via_api apiEnv adUrl = none ∧
         vinted_scrape_item_from_html (htmlEnv adUrl) adUrl = some r)) := by
  constructor
  · intro envD adUrl r h
    exact (olx_get_ad_data_spec envD adUrl r h).1
  · intro htmlEnv apiEnv adUrl r h
    unfold vinted_get_ad_data at h
    cases hh : vinted_scrape_item_from_html (htmlEnv adUrl) adUrl with
    | none =>
      rw [hh] at h
      left
      unfold vinted_fetch_item_via_api at h
      cases ha : apiEnv adUrl with
      | none => rw [ha] at h; cases h
      | some items =>
        rw [ha] at h
        cases items with
        | nil => cases h
        | cons i rest =>
          dsimp only at h
          exact (vinted_build_spec i _ _ r h).1
    | some hdata =>
      rw [hh] at h
      dsimp only at h
      by_cases hcore : vinted_payload_has_core_fields hdata = true
      · rw [if_pos hcore] at h
        injection h with h
        subst h
        exact Or.inl hcore
      · rw [if_neg hcore] at h
        cases ha : vinted_fetch_item_via_api apiEnv adUrl with
        | none =>
          rw [ha] at h
          injection h with h
          subst h
          exact Or.inr ⟨rfl, rfl⟩
        | some a =>
          rw [ha] at h
          dsimp only at h
          injection h with h
          subst h
          left
          have hac : vinted_payload_has_core_fields a = true := by
            unfold vinted_fetch_item_via_api at ha
            cases ha2 : apiEnv adUrl with
            | none => rw [ha2] at ha; cases ha
            | some items =>
              rw [ha2] at ha
              cases items with
              | nil => cases ha
              | cons i rest =>
                dsimp only at ha
                exact (vinted_build_spec i _ _ a ha).1
          exact merge_preserves_core a hdata hac

/-- Witness for the amended required-field theorem: a complete OLX record
and the partial-snapshot Vinted path, both at concrete inputs. -/
theorem c2_required_fields_amended_witness :
    vinted_payload_has_core_fields payW = true ∧
    (vinted_payload_has_core_fields payC2 = true ∨
      (vinted_fetch_item_via_api apiEnvEmpty "https://www.vinted.com/items/9" = none ∧
       vinted_scrape_item_from_html (htmlEnvC2 "https://www.vinted.com/items/9")
         "https://www.vinted.com/items/9" = some payC2)) :=
  ⟨c2_required_fields_amended.1 (fun _ => OlxFetch.resp 200 (olxDocAllText "text"))
     "https://www.olx.ua/obyavlenie/w" payW (by decide),
   c2_required_fields_amended.2 htmlEnvC2 apiEnvEmpty "https://www.vinted.com/items/9"
     payC2 (by decide)⟩

/-- C3: merge precedence of `VintedScraper._merge_payloads` — for every
field the primary (override) source wins exactly when its value is truthy,
the secondary (base) value is used otherwise, a non-empty primary image
list wins, and an empty one never erases a populated base list; in
particular merging primary title "A" with empty images over secondary
title "B" with images ["x"] yields title "A" and images ["x"]. -/
theorem c3_merge_precedence :
    (∀ sec pri : Payload,
      (strTruthy pri.title = true → (merge_payloads sec pri).title = pri.title) ∧
      (strTruthy pri.title = false → (merge_payloads sec pri).title = sec.title) ∧
      (strTruthy pri.price = true → (merge_payloads sec pri).price = pri.price) ∧
      (strTruthy pri.price = false → (merge_payloads sec pri).price = sec.price) ∧
      (strTruthy pri.description = true →
        (merge_payloads sec pri).description = pri.description) ∧
      (strTruthy pri.description = false →
        (merge_payloads sec pri).description = sec.description) ∧
      (strTruthy pri.seller = true → (merge_payloads sec pri).seller = pri.seller) ∧
      (strTruthy pri.seller = false → (merge_payloads sec pri).seller = sec.seller) ∧
      (strTruthy pri.url = true → (merge_payloads sec pri).url = pri.url) ∧
      (strTruthy pri.url = false → (merge_payloads sec pri).url = sec.url) ∧
      (pri.images ≠ [] → (merge_payloads sec pri).images = pri.images) ∧
      (pri.images = [] → (merge_payloads sec pri).images = sec.images)) ∧
    merge_payloads { title := some "B", images := ["x"] }
        { title := some "A", images := [] } =
      { title := some "A", images := ["x"] } := by
  constructor
  · intro sec pri
    unfold merge_payloads pickField
    refine ⟨?_, ?_, ?_, ?_, ?_, ?_, ?_, ?_, ?_, ?_, ?_, ?_⟩ <;>
      first
        | (intro h; simp [h])
  · decide

/-- Witness for the merge-precedence theorem at the concrete payloads of
the claim. -/
theorem c3_merge_precedence_witness :
    (merge_payloads { title := some "B", images := ["x"] }
        { title := some "A", images := [] }).title =
      ({ title := some "A", images := [] } : Payload).title ∧
    (merge_payloads { title := some "B", images := ["x"] }
        { title := some "A", images := [] }).images =
      ({ title := some "B", images := ["x"] } : Payload).images :=
  ⟨(c3_merge_precedence.1 { title := some "B", images := ["x"] }
      { title := some "A", images := [] }).1 (by decide),
   (c3_merge_precedence.1 { title := some "B", images := ["x"] }
      { title := some "A", images := [] }).2.2.2.2.2.2.2.2.2.2.2 (by decide)⟩

/-- C4 counterexample: the OLX variant never applies the short-page rule.
With a requested page size of 5 in the options, listing pages of a single
ad each, no known items and pagination metadata reporting 3 pages,
`OlxScraper.collect_listings` still fetches all 3 pages instead of
stopping early after the first (short) page, refuting the claim for that
variant. -/
theorem c4_counterexample :
    (olx_collect_listings envC4olx none "https://www.olx.ua/x" [("page_size", "5")] 100).map
      (fun r => r.events.length) = Except.ok 3 := by
  decide

/-- C4 (amended): for the Vinted variant with coerced page budget `P` and
page size `S`: discovery issues exactly `P` listing-page fetches when every
page in budget is full and known-free; it stops at page `k` — strictly
fewer fetches when `k < P` — as soon as page `k` contains a known listing
or returns fewer than `S` items.  The OLX variant (see the counterexample)
ignores the requested page size and never stops on short pages; it stops
only via its last-page metadata and known-listing rules. -/
theorem c4_pagination_termination (searchEnv : Nat → Nat → SearchAttempt)
    (htmlEnv : String → Nat → FetchAttempt Extracted) (targetUrl : String)
    (options : List (String × String)) (isKnownF : String → Bool) (ps mp : Nat) :
    ((∀ p, 1 ≤ p → p ≤ vintedBudget options mp →
        (vintedItemsAt searchEnv p).length = vintedSize options ps ∧
        vintedPageHasKnown isKnownF (vintedSchemeOf targetUrl) (vintedDomainOf targetUrl)
          (vintedItemsAt searchEnv p) = false) →
      (vinted_collect_listings searchEnv htmlEnv targetUrl options (some isKnownF)
        ps mp).fetches = vintedBudget options mp) ∧
    (∀ k, 1 ≤ k → k ≤ vintedBudget options mp →
      (∀ p, 1 ≤ p → p < k →
        (vintedItemsAt searchEnv p).length = vintedSize options ps ∧
        vintedPageHasKnown isKnownF (vintedSchemeOf targetUrl) (vintedDomainOf targetUrl)
          (vintedItemsAt searchEnv p) = false) →
      vintedPageHasKnown isKnownF (vintedSchemeOf targetUrl) (vintedDomainOf targetUrl)
        (vintedItemsAt searchEnv k) = true →
      (vinted_collect_listings searchEnv htmlEnv targetUrl options (some isKnownF)
        ps mp).fetches = k) ∧
    (∀ k, 1 ≤ k → k ≤ vintedBudget options mp →
      (∀ p, 1 ≤ p → p < k →
        (vintedItemsAt searchEnv p).length = vintedSize options ps ∧
        vintedPageHasKnown isKnownF (vintedSchemeOf targetUrl) (vintedDomainOf targetUrl)
          (vintedItemsAt searchEnv p) = false) →
      (vintedItemsAt searchEnv k).length < vintedSize options ps →
      (vinted_collect_listings searchEnv htmlEnv targetUrl options (some isKnownF)
        ps mp).fetches = k) := by
  have hS : 0 < vintedSize options ps := vintedSize_pos options ps
  refine ⟨?_, ?_, ?_⟩
  · intro h
    unfold vinted_collect_listings
    rw [vinted_go_full searchEnv htmlEnv isKnownF (vintedSchemeOf targetUrl)
      (vintedDomainOf targetUrl) (vintedSize options ps) hS (vintedBudget options mp) 1 [] 0
      (fun p hp1 hp2 => h p hp1 (by omega))]
    omega
  · intro k hk1 hk2 hfull hkn
    unfold vinted_collect_listings
    rw [vinted_go_stop searchEnv htmlEnv isKnownF (vintedSchemeOf targetUrl)
      (vintedDomainOf targetUrl) (vintedSize options ps) hS (vintedBudget options mp) 1 [] 0 k
      hk1 (by omega) (fun p hp1 hp2 => hfull p hp1 hp2) (Or.inr hkn)]
    omega
  · intro k hk1 hk2 hfull hshort
    unfold vinted_collect_listings
    rw [vinted_go_stop searchEnv htmlEnv isKnownF (vintedSchemeOf targetUrl)
      (vintedDomainOf targetUrl) (vintedSize options ps) hS (vintedBudget options mp) 1 [] 0 k
      hk1 (by omega) (fun p hp1 hp2 => hfull p hp1 hp2) (Or.inl hshort)]
    omega

/-- Witness for the amended pagination theorem: with budget 2 and page
size 2, a full unknown source is fetched exactly twice; a known item on
page 1 stops after one fetch; a short page 1 stops after one fetch. -/
theorem c4_pagination_termination_witness :
    (vinted_collect_listings searchEnvC4 htmlEnvDown tgtC4 optsC4 (some kNone) 20 10).fetches = 2 ∧
    (vinted_collect_listings searchEnvC4 htmlEnvDown tgtC4 optsC4 (some kOne) 20 10).fetches = 1 ∧
    (vinted_collect_listings searchEnvC4Short htmlEnvDown tgtC4 optsC4 (some kNone)
      20 10).fetches = 1 :=
  ⟨((c4_pagination_termination searchEnvC4 htmlEnvDown tgtC4 optsC4 kNone 20 10).1
      (by
        intro p h1 h2
        have hb : vintedBudget optsC4 10 = 2 := by decide
        rw [hb] at h2
        interval_cases p <;> exact ⟨by decide, by decide⟩)).trans (by decide),
   (c4_pagination_termination searchEnvC4 htmlEnvDown tgtC4 optsC4 kOne 20 10).2.1 1
     (by decide) (by decide) (by intro p h1 h2; omega) (by decide),
   (c4_pagination_termination searchEnvC4Short htmlEnvDown tgtC4 optsC4 kNone 20 10).2.2 1
     (by decide) (by decide) (by intro p h1 h2; omega) (by decide)⟩

/-- C5 counterexample: `OlxScraper.collect_listings` ignores the
`max_pages` option entirely — with `max_pages=3` requested and pagination
metadata reporting 5 pages of ads, it fetches 5 listing pages, refuting
the claim that every variant caps its fetches by `options.max_pages`. -/
theorem c5_counterexample :
    (olx_collect_listings envC5olx none "https://www.olx.ua/x" [("max_pages", "3")] 100).map
      (fun r => r.events.length) = Except.ok 5 := by
  decide

/-- C5 (amended): the Vinted variant fetches at most the coerced
`max_pages` budget, itself clamped to the variant ceiling of 10, so its
pagination loop terminates even when every heuristic fails; the OLX
variant (see the counterexample) has no such cap and is bounded only by
its metadata/known-item heuristics. -/
theorem c5_max_pages_amended (searchEnv : Nat → Nat → SearchAttempt)
    (htmlEnv : String → Nat → FetchAttempt Extracted) (targetUrl : String)
    (options : List (String × String)) (isKnown : Option (String → Bool)) (ps mp : Nat) :
    (vinted_collect_listings searchEnv htmlEnv targetUrl options isKnown ps mp).fetches ≤
      vintedBudget options mp ∧
    vintedBudget options mp ≤ 10 := by
  constructor
  · unfold vinted_collect_listings
    have h := vinted_go_fetch_bound searchEnv htmlEnv isKnown (vintedSchemeOf targetUrl)
      (vintedDomainOf targetUrl) (vintedSize options ps) (vintedBudget options mp) 1 [] 0
    simpa using h
  · exact vintedBudget_le options mp

/-- C6 counterexample: a transport error (no response status) aborts the
Vinted API search after a single attempt with no backoff sleep, as does a
500 status; the OLX fetch issues exactly one request and gives up on a
transport error.  This refutes the claim that every outbound fetch retries
network errors and 5xx statuses on the 0/1/2/4-second schedule. -/
theorem c6_counterexample :
    (search_with_retries (fun _ => SearchAttempt.exc none)).attempts = 1 ∧
    (search_with_retries (fun _ => SearchAttempt.exc none)).sleeps = [] ∧
    (search_with_retries (fun _ => SearchAttempt.exc (some 500))).attempts = 1 ∧
    olx_parse_content (OlxFetch.exc : OlxFetch OlxDoc) = (none, 1) := by
  refine ⟨rfl, rfl, rfl, rfl⟩

/-- C6 (amended): only `_fetch_item_soup` follows the 0s/1s/2s/4s schedule
with four attempts — it retries transport errors and every 4xx/5xx status,
yielding no data on exhaustion, and succeeds on a later good response.
`_search_with_retries` retries (after a cookie refresh) only on 401/429
and aborts on the first transport error or any other failure, returning
`[]`.  The OLX `_parse_content` always issues exactly one request.  A
fetch that yields no items is non-fatal: the pagination loop stops and the
collected listings so far are returned. -/
theorem c6_retry_amended :
    (∀ (α : Type) (env : Nat → FetchAttempt α),
      (∀ i, 1 ≤ i → i ≤ 4 → attemptFails (env i) = true) →
      fetch_item_soup env = { result := none, attempts := 4, sleeps := [1, 2, 4] }) ∧
    (∀ (α : Type) (env : Nat → FetchAttempt α) (b : α),
      attemptFails (env 1) = true → env 2 = FetchAttempt.resp 200 b →
      fetch_item_soup env = { result := some b, attempts := 2, sleeps := [1] }) ∧
    (∀ (env : Nat → SearchAttempt) (s : Option Nat),
      env 1 = SearchAttempt.exc s → s ≠ some 403 → s ≠ some 401 → s ≠ some 429 →
      search_with_retries env =
        { items := [], attempts := 1, sleeps := [], refreshes := 0 }) ∧
    (∀ (env : Nat → SearchAttempt) (l : List (Option RawPayload)),
      env 1 = SearchAttempt.exc (some 429) → env 2 = SearchAttempt.ok l →
      search_with_retries env =
        { items := l, attempts := 2, sleeps := [1], refreshes := 1 }) ∧
    (∀ (α : Type) (fe : OlxFetch α), (olx_parse_content fe).2 = 1) ∧
    (∀ (searchEnv : Nat → Nat → SearchAttempt)
       (htmlEnv : String → Nat → FetchAttempt Extracted) (targetUrl : String)
       (options : List (String × String)) (isKnown : Option (String → Bool)) (ps mp : Nat),
      (search_with_retries (searchEnv 1)).items = [] →
      (vinted_collect_listings searchEnv htmlEnv targetUrl options isKnown ps mp).collected
          = [] ∧
        (vinted_collect_listings searchEnv htmlEnv targetUrl options isKnown ps mp).fetches
          = 1) := by
  refine ⟨fun α env h => fetch_soup_all_fail env h,
          fun α env b h1 h2 => fetch_soup_retry_succeeds env b h1 h2,
          fun env s h1 h403 h401 h429 => search_abort_other env s h1 h403 h401 h429,
          fun env l h1 h2 => search_retry_429 env l h1 h2,
          ?_, ?_⟩
  · intro α fe
    cases fe with
    | exc => rfl
    | resp status body =>
      unfold olx_parse_content
      by_cases h : 400 ≤ status ∧ status < 600
      · simp [h]
      · simp [h]
  · intro searchEnv htmlEnv targetUrl options isKnown ps mp hempty
    obtain ⟨n, hn⟩ : ∃ n, vintedBudget options mp = n + 1 :=
      ⟨vintedBudget options mp - 1, by have := vintedBudget_pos options mp; omega⟩
    unfold vinted_collect_listings
    rw [hn]
    unfold vinted_collect_go
    rw [hempty]
    simp

/-- Witness for the amended retry theorem at concrete environments. -/
theorem c6_retry_amended_witness :
    fetch_item_soup (fun _ => (FetchAttempt.exc : FetchAttempt Unit)) =
      { result := none, attempts := 4, sleeps := [1, 2, 4] } ∧
    fetch_item_soup (fun i => if i = 1 then (FetchAttempt.exc : FetchAttempt Unit)
        else FetchAttempt.resp 200 ()) =
      { result := some (), attempts := 2, sleeps := [1] } ∧
    search_with_retries (fun _ => SearchAttempt.exc (some 500)) =
      { items := [], attempts := 1, sleeps := [], refreshes := 0 } ∧
    search_with_retries (fun i => if i = 1 then SearchAttempt.exc (some 429)
        else SearchAttempt.ok []) =
      { items := [], attempts := 2, sleeps := [1], refreshes := 1 } ∧
    (olx_parse_content (OlxFetch.exc : OlxFetch Unit)).2 = 1 ∧
    (vinted_collect_listings (fun _ _ => SearchAttempt.exc none) htmlEnvDown tgtC4 []
      none 20 10).collected = [] :=
  ⟨c6_retry_amended.1 Unit _ (by intro i h1 h2; interval_cases i <;> decide),
   c6_retry_amended.2.1 Unit _ () (by decide) rfl,
   c6_retry_amended.2.2.1 _ (some 500) rfl (by decide) (by decide) (by decide),
   c6_retry_amended.2.2.2.1 _ [] rfl rfl,
   c6_retry_amended.2.2.2.2.1 Unit _,
   (c6_retry_amended.2.2.2.2.2 (fun _ _ => SearchAttempt.exc none) htmlEnvDown tgtC4 []
     none 20 10 rfl).1⟩

/-- C7 counterexample: a 403 response on the Vinted HTML item-fetch path is
retried like any other HTTP error — four attempts with the full backoff
schedule — refuting the claim that a 403 aborts immediately in every fetch
path. -/
theorem c7_counterexample :
    fetch_item_soup (fun _ => (FetchAttempt.resp 403 () : FetchAttempt Unit)) =
      { result := none, attempts := 4, sleeps := [1, 2, 4] } := by
  decide

/-- C7 (amended): a 403 aborts the Vinted API search immediately — one
attempt, no sleeps, no retries — but the Vinted HTML item fetch treats a
403 like any other HTTP error and retries it through the full 0/1/2/4
schedule before giving up. -/
theorem c7_403_amended :
    (∀ (env : Nat → SearchAttempt), env 1 = SearchAttempt.exc (some 403) →
      search_with_retries env =
        { items := [], attempts := 1, sleeps := [], refreshes := 0 }) ∧
    (∀ (α : Type) (env : Nat → FetchAttempt α),
      (∀ i, 1 ≤ i → i ≤ 4 → ∃ b, env i = FetchAttempt.resp 403 b) →
      fetch_item_soup env = { result := none, attempts := 4, sleeps := [1, 2, 4] }) := by
  constructor
  · exact fun env h => search_403_aborts env h
  · intro α env h
    refine fetch_soup_all_fail env ?_
    intro i h1 h2
    obtain ⟨b, hb⟩ := h i h1 h2
    rw [hb]
    simp [attemptFails]

/-- Witness for the amended 403 theorem at concrete environments. -/
theorem c7_403_amended_witness :
    search_with_retries (fun _ => SearchAttempt.exc (some 403)) =
      { items := [], attempts := 1, sleeps := [], refreshes := 0 } ∧
    fetch_item_soup (fun _ => (FetchAttempt.resp 403 "page" : FetchAttempt String)) =
      { result := none, attempts := 4, sleeps := [1, 2, 4] } :=
  ⟨c7_403_amended.1 _ rfl,
   c7_403_amended.2 String _ (fun _ _ _ => ⟨"page", rfl⟩)⟩

/-- C8: dedup idempotence — after inserting a URL it exists; inserting it
again raises nothing (the operation is total), changes nothing, and — when
the table satisfied its uniqueness invariant — creates no duplicate row. -/
theorem c8_dedup_idempotent (db : List String) (u : String) :
    url_exists (add_url db u) u = true ∧
    url_exists (add_url (add_url db u) u) u = true ∧
    add_url (add_url db u) u = add_url db u ∧
    (db.Nodup → (add_url (add_url db u) u).Nodup) := by
  have h1 : url_exists (add_url db u) u = true := by
    unfold url_exists add_url
    by_cases hdb : db.contains u = true
    · rw [if_pos hdb]; exact hdb
    · rw [if_neg hdb]; simp
  have h2 : add_url (add_url db u) u = add_url db u := by
    have h1' : (add_url db u).contains u = true := h1
    conv_lhs => rw [add_url]
    rw [if_pos h1']
  refine ⟨h1, by rw [h2]; exact h1, h2, ?_⟩
  intro hnd
  rw [h2]
  unfold add_url
  by_cases hdb : db.contains u = true
  · rw [if_pos hdb]; exact hnd
  · rw [if_neg hdb]
    have hnm : u ∉ db := by simpa using hdb
    simp [List.nodup_append, hnd, hnm]

/-- Witness of the dedup-idempotence theorem at a concrete table. -/
theorem c8_dedup_idempotent_witness :
    url_exists (add_url (add_url ["https://a"] "https://b") "https://b") "https://b" = true ∧
    add_url (add_url ["https://a"] "https://b") "https://b" =
      add_url ["https://a"] "https://b" ∧
    (add_url (add_url ["https://a"] "https://b") "https://b").Nodup :=
  ⟨(c8_dedup_idempotent ["https://a"] "https://b").2.1,
   (c8_dedup_idempotent ["https://a"] "https://b").2.2.1,
   (c8_dedup_idempotent ["https://a"] "https://b").2.2.2 (by decide)⟩

/-- C9 counterexample: a two-page OLX run issues its two page requests
back to back — the trace contains no sleep at all between consecutive
requests, so no 1-second minimum inter-request spacing is enforced. -/
theorem c9_counterexample :
    (olx_collect_listings envC9olx none "https://www.olx.ua/x" [] 10).map
      (fun r => (r.events.length, requestSpacingOk 1 r.events)) = Except.ok (2, false) := by
  decide

/-- C9 (amended): no minimum inter-request spacing exists.  The OLX fetch
path performs no sleeping whatsoever — every event of any
`collect_listings` trace is a request — and a Vinted page search whose
first attempt succeeds sleeps zero seconds, so consecutive page fetches
are issued back to back; the only sleeps anywhere are the retry backoffs
inside a single failing fetch. -/
theorem c9_no_rate_limit_amended :
    (∀ (env : String → OlxFetch OlxListingPage) (isKnown : Option (String → Bool))
       (targetUrl : String) (options : List (String × String)) (fuel : Nat) (run : OlxRun),
      olx_collect_listings env isKnown targetUrl options fuel = Except.ok run →
      run.events.all isRequestEv = true) ∧
    (∀ (env : Nat → SearchAttempt) (l : List (Option RawPayload)),
      env 1 = SearchAttempt.ok l →
      (search_with_retries env).sleeps = [] ∧ (search_with_retries env).attempts = 1) := by
  constructor
  · intro env isKnown targetUrl options fuel run h
    unfold olx_collect_listings at h
    dsimp only at h
    split at h
    · cases h
    · injection h with h
      rw [← h]
      exact olx_go_events_requests env isKnown targetUrl (netlocOf targetUrl) fuel 1 [] [] rfl
  · intro env l h
    rw [search_first_ok env l h]
    exact ⟨rfl, rfl⟩

/-- Witness for the amended no-rate-limit theorem: the concrete two-page
run and a first-attempt search. -/
theorem c9_no_rate_limit_amended_witness :
    runC9.events.all isRequestEv = true ∧
    ((search_with_retries searchOkEnv).sleeps = [] ∧
     (search_with_retries searchOkEnv).attempts = 1) :=
  ⟨c9_no_rate_limit_amended.1 envC9olx none "https://www.olx.ua/x" [] 10 runC9 (by decide),
   c9_no_rate_limit_amended.2 searchOkEnv [] rfl⟩

/-- C10 counterexample: `VintedScraper.supports` is not a membership test
against a fixed allow-list — its inherited `supported_domains` is empty
(so the base-class allow-list test rejects even `www.vinted.com`), yet it
accepts any domain containing the substring `vinted`, including the
foreign domain `www.my-unvinted.shop`. -/
theorem c10_counterexample :
    vinted_supports "https://www.vinted.com/catalog" = true ∧
    vinted_supported_domains = [] ∧
    base_supports vinted_supported_domains "https://www.vinted.com/catalog" = false ∧
    vinted_supports "https://www.my-unvinted.shop/x" = true := by
  refine ⟨by decide, rfl, rfl, by decide⟩

/-- C10 (amended): `OlxScraper.supports` is exactly case-insensitive
membership of the URL's domain in its fixed allow-list, while
`VintedScraper.supports` is a substring test for `"vinted"` on the
lowercased domain — a strictly weaker test — and its own inherited
allow-list check rejects every URL. -/
theorem c10_supports_amended :
    (∀ url : String, olx_supports url = true ↔
      strLower (netlocOf url) ∈ olx_supported_domains) ∧
    (∀ url : String, vinted_supports url = containsSub "vinted" (strLower (netlocOf url))) ∧
    (∀ url : String, base_supports vinted_supported_domains url = false) := by
  refine ⟨?_, fun url => rfl, fun url => rfl⟩
  intro url
  unfold olx_supports base_supports
  rw [show ((olx_supported_domains.filter (fun d => d ≠ "")).map strLower) =
    olx_supported_domains from by decide]
  exact List.elem_iff

/-- Witness for the amended supports theorem at concrete URLs. -/
theorem c10_supports_amended_witness :
    olx_supports "https://www.olx.ua/list" = true ∧
    vinted_supports "https://www.vinted.de/catalog" =
      containsSub "vinted" (strLower (netlocOf "https://www.vinted.de/catalog")) ∧
    base_supports vinted_supported_domains "https://www.vinted.de/catalog" = false :=
  ⟨(c10_supports_amended.1 "https://www.olx.ua/list").mpr (by decide),
   c10_supports_amended.2.1 "https://www.vinted.de/catalog",
   c10_supports_amended.2.2 "https://www.vinted.de/catalog"⟩
